import Mathlib

/-!
# Battle City: the simulation core of `main.go`

A shallow embedding of the collision kernel, the movement resolver, the AI
direction selector, the projectile hit resolution, the spawn controller and
the per-tick update of `main.go`, with the properties proved about them.

Modelling conventions.

* `float64` coordinates are rationals.  Every coordinate the game produces is
  an integer multiple of `1/2` far below `2^52`, so the floating point
  operations of the source are exact on them.
* An `*ebiten.Image` is represented by the rectangle it was cut out of the
  sprite sheet with; only its `Bounds().Dx()` and `Bounds().Dy()` are used.
  The sprite sheet is taken to contain every rectangle cut out of it.
* A `*Tank` is an index into `Game.tanks`, the store of tank objects, and a
  `*Bullet` an index into `Game.shots`.  Objects are never freed, allocation
  appends to the store.  Reading through an index outside the store yields the
  zero object.
* A Go `map[K]struct{}` is the list of its keys in iteration order; `delete`
  erases the key and an insertion appends it.  The obstacles, which are never
  written to, are kept in the list by value.
* Draws of `math/rand` and the keys held are inputs of the tick.
* A run-time panic is `none`.
-/

namespace BattleCity

/-! ## Constants -/

def screenWidth : ℚ := 416
def screenHeight : ℚ := 416
def tileSize : Int := 16

/-- The table `levels_enemies` set up by `init`. -/
def levels_enemies : List (List Int) :=
  [[18, 2, 0, 0], [14, 4, 0, 2], [14, 4, 0, 2], [2, 5, 10, 3], [8, 5, 5, 2],
   [9, 2, 7, 2], [7, 4, 6, 3], [7, 4, 7, 2], [6, 4, 7, 3], [12, 2, 4, 2],
   [5, 5, 4, 6], [0, 6, 8, 6], [0, 8, 8, 4], [0, 4, 10, 6], [0, 2, 10, 8],
   [16, 2, 0, 2], [8, 2, 8, 2], [2, 8, 6, 4], [4, 4, 4, 8], [2, 8, 2, 8],
   [6, 2, 8, 4], [6, 8, 2, 4], [0, 10, 4, 6], [10, 4, 4, 2], [0, 8, 2, 10],
   [4, 6, 4, 6], [2, 8, 2, 8], [15, 2, 2, 1], [0, 4, 10, 6], [4, 8, 4, 4],
   [3, 8, 3, 6], [6, 4, 2, 8], [4, 4, 4, 8], [0, 10, 4, 6], [0, 6, 4, 10]]

/-- The table `born_positions`, indexed by a draw of `rand.Intn(3)`. -/
def born_positions (i : Fin 3) : Int × Int :=
  match i with
  | 0 => (3, 3)
  | 1 => (192, 3)
  | 2 => (381, 3)

def max_enemies : Nat := 4

/-! ## Entities -/

/-- The type `*ebiten.Image`: an image cut out of the sprite sheet by
`tilesImage.SubImage(image.Rect(x0, y0, x1, y1))`. -/
structure EbitenImage where
  x0 : Int
  y0 : Int
  x1 : Int
  y1 : Int
deriving DecidableEq, Repr, Inhabited

/-- The width `Bounds().Dx()` of an image. -/
def EbitenImage.Dx (i : EbitenImage) : Int := i.x1 - i.x0

/-- The height `Bounds().Dy()` of an image. -/
def EbitenImage.Dy (i : EbitenImage) : Int := i.y1 - i.y0

/-- The nil image, left by a `switch` none of whose cases applies. -/
def nilImage : EbitenImage := ⟨0, 0, 0, 0⟩

/-- The type `Mode`. -/
inductive Mode where
  | ModeTitle
  | ModeGame
  | ModeGameOver
deriving DecidableEq, Repr, Inhabited

/-- A pointer: the index of an object in its store. -/
abbrev Ptr := Nat

/-- The type `Bullet`. -/
structure Bullet where
  Image : EbitenImage
  X : ℚ
  Y : ℚ
  F : Int
  SpeedFactor : ℚ
  Owner : Ptr
deriving DecidableEq, Repr, Inhabited

/-- The type `Tank`. -/
structure Tank where
  enemy : Bool
  Image : EbitenImage
  X : ℚ
  Y : ℚ
  Face : Int
  SpeedFactor : ℚ
  Failed : Bool
deriving DecidableEq, Repr, Inhabited

/-- The type `Other`: an obstacle. -/
structure Other where
  Image : EbitenImage
  X : ℚ
  Y : ℚ
  T : Int
deriving DecidableEq, Repr, Inhabited

/-- The interface `Entity`: `GetInfo` returns `(Width, Height, X, Y)`. -/
class Entity (α : Type) where
  GetInfo : α → Int × Int × ℚ × ℚ

def Other.GetInfo (o : Other) : Int × Int × ℚ × ℚ :=
  let w := o.Image.Dx
  let h := o.Image.Dy
  (w * 2, h * 2, o.X, o.Y)

def Tank.Turn (t : Tank) (i : Int) : Tank := { t with Face := i }

def Tank.GetInfo (t : Tank) : Int × Int × ℚ × ℚ :=
  let w := t.Image.Dx
  let h := t.Image.Dy
  (w * 2, h * 2, t.X, t.Y)

def Bullet.GetInfo (b : Bullet) : Int × Int × ℚ × ℚ :=
  let w := b.Image.Dx
  let h := b.Image.Dy
  (w * 2, h * 2, b.X, b.Y)

instance : Entity Other := ⟨Other.GetInfo⟩
instance : Entity Tank := ⟨Tank.GetInfo⟩
instance : Entity Bullet := ⟨Bullet.GetInfo⟩

def Bullet.Move (b : Bullet) : Bullet :=
  if b.F = 0 then { b with Y := b.Y - b.SpeedFactor }
  else if b.F = 1 then { b with X := b.X + b.SpeedFactor }
  else if b.F = 2 then { b with Y := b.Y + b.SpeedFactor }
  else { b with X := b.X - b.SpeedFactor }

/-! ## Collision kernel -/

def RectCollision (aWidth aHeight : Int) (aX aY : ℚ) (bWidth bHeight : Int) (bX bY : ℚ)
    (eqa : Bool) : Bool :=
  let top := aY
  let left := aX
  let bottom := aY + (aHeight : ℚ)
  let right := aX + (aWidth : ℚ)
  -- top left
  let x := bX
  let y := bY
  if eqa = true ∧ y ≥ top ∧ y ≤ bottom ∧ x ≥ left ∧ x ≤ right then true
  else if y > top ∧ y < bottom ∧ x > left ∧ x < right then true
  else
  -- top right
  let x := bX + (bWidth : ℚ)
  let y := bY
  if eqa = true ∧ y ≥ top ∧ y ≤ bottom ∧ x ≥ left ∧ x ≤ right then true
  else if y > top ∧ y < bottom ∧ x > left ∧ x < right then true
  else
  -- bottom left
  let x := bX
  let y := bY + (bHeight : ℚ)
  if eqa = true ∧ y ≥ top ∧ y ≤ bottom ∧ x ≥ left ∧ x ≤ right then true
  else if y > top ∧ y < bottom ∧ x > left ∧ x < right then true
  else
  -- bottom right
  let x := bX + (bWidth : ℚ)
  let y := bY + (bHeight : ℚ)
  if eqa = true ∧ y ≥ top ∧ y ≤ bottom ∧ x ≥ left ∧ x ≤ right then true
  else if y > top ∧ y < bottom ∧ x > left ∧ x < right then true
  else false

def CheckCollision {α β : Type} [Entity α] [Entity β] (A : α) (B : β) (eqa : Bool) : Bool :=
  let (aWidth, aHeight, aX, aY) := Entity.GetInfo A
  let (bWidth, bHeight, bX, bY) := Entity.GetInfo B
  RectCollision aWidth aHeight aX aY bWidth bHeight bX bY eqa

/-- The point `(x, y)` lies in the rectangle of the box `(aWidth, aHeight, aX, aY)`:
bounds included when `eqa` holds, excluded otherwise. -/
def liesIn (aWidth aHeight : Int) (aX aY : ℚ) (eqa : Bool) (x y : ℚ) : Prop :=
  if eqa = true then
    aX ≤ x ∧ x ≤ aX + (aWidth : ℚ) ∧ aY ≤ y ∧ y ≤ aY + (aHeight : ℚ)
  else
    aX < x ∧ x < aX + (aWidth : ℚ) ∧ aY < y ∧ y < aY + (aHeight : ℚ)

/-! ## Constructors -/

/-- The method `Fire` of a tank; `self` is the pointer to the firing tank. -/
def Tank.Fire (t : Tank) (self : Ptr) : Bullet :=
  let w : ℚ := (t.Image.Dx : ℚ)
  let h : ℚ := (t.Image.Dy : ℚ)
  let img : EbitenImage := ⟨75, 74, 75 + 3, 74 + 4⟩
  let dx : ℚ := (img.Dx : ℚ)
  let dy : ℚ := (img.Dy : ℚ)
  let xy : ℚ × ℚ :=
    if t.Face = 0 then (t.X + w - dx, t.Y - 2 * dy)
    else if t.Face = 1 then (t.X + h * 2, t.Y + w - dx)
    else if t.Face = 2 then (t.X + w - dx, t.Y + h * 2)
    else (t.X - h, t.Y + w - dx)
  { Image := img, X := xy.1, Y := xy.2, F := t.Face, SpeedFactor := 2, Owner := self }

/-- The type `EnemyType`. -/
abbrev EnemyType := Int

def NewEnemy (t : EnemyType) (F : Int) (x y : ℚ) : Tank :=
  let img : EbitenImage :=
    if t = 0 then ⟨32, 0, 32 + 13, 15⟩
    else if t = 1 then ⟨48, 0, 48 + 13, 15⟩
    else if t = 2 then ⟨64, 0, 64 + 13, 15⟩
    else if t = 3 then ⟨80, 0, 80 + 13, 15⟩
    else if t = 4 then ⟨32, 16, 32 + 13, 16 + 15⟩
    else if t = 5 then ⟨48, 16, 48 + 13, 16 + 15⟩
    else if t = 6 then ⟨64, 16, 64 + 13, 16 + 15⟩
    else if t = 7 then ⟨80, 16, 80 + 13, 16 + 15⟩
    else nilImage
  { Image := img, X := x, Y := y, Face := F, Failed := false, enemy := true,
    SpeedFactor := 1 / 2 }

def NewOther (x y : ℚ) (t : Int) : Other :=
  let img : EbitenImage :=
    if t = 0 then ⟨56, 64, 56 + tileSize / 2, 64 + tileSize / 2⟩
    else if t = 1 then ⟨48, 72, 48 + tileSize / 2, 72 + tileSize / 2⟩
    else if t = 2 then ⟨64, 64, 64 + tileSize / 2, 64 + tileSize / 2⟩
    else ⟨56, 72, 56 + tileSize / 2, 72 + tileSize / 2⟩
  { Image := img, X := x, Y := y, T := t }

def NewPlayer (player : Int) : Tank :=
  if player = 0 then
    { enemy := false, Image := ⟨0, 0, tileSize - 3, tileSize - 3⟩, X := 144, Y := 384,
      Face := 0, SpeedFactor := 1, Failed := false }
  else
    { enemy := false, Image := ⟨16, 0, 16 + tileSize - 3, tileSize - 3⟩, X := 240 + 3,
      Y := 384, Face := 0, SpeedFactor := 1, Failed := false }

/-- The type `Castle`; `mode` is standing: 0, exploding: 1, destroyed: 2. -/
structure Castle where
  Image : EbitenImage
  DestroyedImage : EbitenImage
  mode : Mode
deriving DecidableEq, Repr, Inhabited

def NewCastle : Castle :=
  { Image := ⟨0, 15, tileSize, 15 + tileSize⟩,
    DestroyedImage := ⟨0, 15, tileSize, 15 + tileSize⟩,
    mode := Mode.ModeTitle }

/-! ## The session -/

/-- The type `Game`, with the two object stores `tanks` and `shots` the
pointers of the session point into. -/
structure Game where
  tanks : List Tank
  shots : List Bullet
  mode : Mode
  p0 : Ptr
  p1 : Option Ptr
  twoPlayer : Bool
  bullets : List Ptr
  enemys : List Ptr
  castle : Castle
  level : Int
  mapLevel : List String
  others : List Other
  enemies_left : List Int
  idx : Int
deriving DecidableEq, Repr, Inhabited

/-- The tank a pointer points to. -/
def Game.tank (g : Game) (p : Ptr) : Tank := g.tanks.getD p default

/-- The bullet a pointer points to. -/
def Game.bullet (g : Game) (p : Ptr) : Bullet := g.shots.getD p default

/-- Assignment through a tank pointer. -/
def Game.setTank (g : Game) (p : Ptr) (t : Tank) : Game := { g with tanks := g.tanks.set p t }

/-- Assignment through a bullet pointer. -/
def Game.setBullet (g : Game) (p : Ptr) (b : Bullet) : Game :=
  { g with shots := g.shots.set p b }

def Game.addPlayer (g : Game) : Game :=
  let g1 : Game := { g with tanks := g.tanks ++ [NewPlayer 0], p0 := g.tanks.length }
  if g1.twoPlayer = true then
    { g1 with tanks := g1.tanks ++ [NewPlayer 1], p1 := some g1.tanks.length }
  else g1

def Game.OutOfScreen {α : Type} [Entity α] (_g : Game) (e : α) : Bool :=
  let (w, h, x, y) := Entity.GetInfo e
  let x1 := (w : ℚ) + x
  let y1 := (h : ℚ) + y
  if x < 0 ∨ y < 0 then true
  else if x1 > screenWidth ∨ y1 > screenHeight then true
  else false

def Game.Move (g : Game) (t : Ptr) : Bool × Game :=
  if (g.tank t).Failed = true then (false, g)
  else
  let x0 := (g.tank t).X
  let y0 := (g.tank t).Y
  let g1 : Game :=
    if (g.tank t).Face = 0 then
      g.setTank t { g.tank t with Y := (g.tank t).Y - (g.tank t).SpeedFactor }
    else if (g.tank t).Face = 1 then
      g.setTank t { g.tank t with X := (g.tank t).X + (g.tank t).SpeedFactor }
    else if (g.tank t).Face = 2 then
      g.setTank t { g.tank t with Y := (g.tank t).Y + (g.tank t).SpeedFactor }
    else
      g.setTank t { g.tank t with X := (g.tank t).X - (g.tank t).SpeedFactor }
  let back : Game := g1.setTank t { g1.tank t with X := x0, Y := y0 }
  if (decide (t ≠ g1.p0) && !(g1.tank g1.p0).Failed
      && CheckCollision (g1.tank g1.p0) (g1.tank t) true) = true then (true, back)
  else if (match g1.p1 with
      | some p1 => decide (t ≠ p1) && !(g1.tank p1).Failed
          && CheckCollision (g1.tank p1) (g1.tank t) true
      | none => false) = true then (true, back)
  else if g1.enemys.any (fun e => decide (e ≠ t) && CheckCollision (g1.tank e) (g1.tank t) true)
      = true then (true, back)
  else if g1.others.any (fun other => CheckCollision (g1.tank t) other true) = true then
    (true, back)
  else if g1.OutOfScreen (g1.tank t) = true then (true, back)
  else (false, g1)

def Game.EnemyMove (g : Game) (t : Ptr) : Game :=
  if (g.tank t).Failed = true then g
  else if (g.tank t).Face = 0 then
    g.setTank t { g.tank t with Y := (g.tank t).Y - (g.tank t).SpeedFactor }
  else if (g.tank t).Face = 1 then
    g.setTank t { g.tank t with X := (g.tank t).X + (g.tank t).SpeedFactor }
  else if (g.tank t).Face = 2 then
    g.setTank t { g.tank t with Y := (g.tank t).Y + (g.tank t).SpeedFactor }
  else
    g.setTank t { g.tank t with X := (g.tank t).X - (g.tank t).SpeedFactor }

def Game.HitAndRemove (g : Game) (b : Ptr) : Game :=
  if (!(g.tank g.p0).Failed && decide ((g.bullet b).Owner ≠ g.p0)
      && CheckCollision (g.tank g.p0) (g.bullet b) false) = true then
    { g.setTank g.p0 { g.tank g.p0 with Failed := true } with bullets := g.bullets.erase b }
  else
  match g.p1.filter (fun p1 => !(g.tank p1).Failed && decide ((g.bullet b).Owner ≠ p1)
      && CheckCollision (g.tank p1) (g.bullet b) false) with
  | some p1 =>
    { g.setTank p1 { g.tank p1 with Failed := true } with bullets := g.bullets.erase b }
  | none =>
  match g.others.find? (fun other => CheckCollision other (g.bullet b) false) with
  | some other => { g with others := g.others.erase other, bullets := g.bullets.erase b }
  | none =>
  match g.enemys.find? (fun e => decide ((g.bullet b).Owner ≠ e)
      && CheckCollision (g.tank e) (g.bullet b) false) with
  | some e => { g with enemys := g.enemys.erase e, bullets := g.bullets.erase b }
  | none => g

def Game.addBullet (g : Game) (bullet : Ptr) : Game := { g with bullets := g.bullets ++ [bullet] }

def Game.addOther (g : Game) (o : Other) : Game := { g with others := g.others ++ [o] }

def Game.addEnermy (g : Game) (enemy : Ptr) : Game := { g with enemys := g.enemys ++ [enemy] }

def NotSafe (t1 t2 : Tank) : Bool :=
  let (w1, h1, x_1, y_1) := t1.GetInfo
  let x1 := x_1 + (w1 : ℚ) / 2
  let y1 := y_1 + (h1 : ℚ) / 2
  let (w2, h2, x_2, y_2) := t2.GetInfo
  let x2 := x_2 + (w2 : ℚ) / 2
  let y2 := y_2 + (h2 : ℚ) / 2
  if (x1 - x2) ^ 2 + (y1 - y2) ^ 2 ≤ (w1 : ℚ) ^ 2 + (h1 : ℚ) ^ 2 then true
  else false

/-- The method `PosConflict`; `enemy` is the candidate, not yet in the live set. -/
def Game.PosConflict (g : Game) (enemy : Tank) : Bool :=
  if (!(g.tank g.p0).Failed && NotSafe (g.tank g.p0) enemy) = true then true
  else if (match g.p1 with
      | some p1 => !(g.tank p1).Failed && NotSafe (g.tank g.p0) enemy
      | none => false) = true then true
  else if g.enemys.any (fun e => NotSafe (g.tank e) enemy) = true then true
  else false

/-- The method `Generate_enemy`; `r3` and `r4` are the draws `rand.Intn(3)` and
`rand.Intn(4)`.  Reading `enemies_left` outside its bounds panics. -/
def Game.Generate_enemy (g : Game) (r3 : Fin 3) (r4 : Fin 4) : Option Game :=
  if g.idx < 20 then
    let pos := born_positions r3
    let x : ℚ := (pos.1 : ℚ)
    let y : ℚ := (pos.2 : ℚ)
    if g.idx < 0 then none
    else
    match g.enemies_left[g.idx.toNat]? with
    | none => none
    | some ty =>
      let e := NewEnemy ty (r4.val : Int) x y
      if g.PosConflict e = true ∨ g.enemys.length = max_enemies then some g
      else
        let g1 : Game := { g with tanks := g.tanks ++ [e] }
        let g2 := g1.addEnermy g.tanks.length
        some { g2 with idx := g2.idx + 1 }
  else some g

/-- The queue built by the two loops of `init` over a row of `levels_enemies`:
`v` copies of the index `i` for each entry `v` at index `i`, from index `i` on. -/
def expandFrom (i : Int) : List Int → List Int
  | [] => []
  | v :: vs => List.replicate v.toNat i ++ expandFrom (i + 1) vs

/-- The inner loop of `ParseLevel` over the characters of row `i` from column `j` on.
A character other than `#`, `@`, `%`, `~` and `.` stores a nil obstacle, whose
first use panics: the result is `none`. -/
def parseRow (i : Int) : Int → List Char → List Other → Option (List Other)
  | _, [], acc => some acc
  | j, ch :: rest, acc =>
    let x : ℚ := ((j * tileSize : Int) : ℚ)
    let y : ℚ := ((i * tileSize : Int) : ℚ)
    if ch = '#' then parseRow i (j + 1) rest (acc ++ [NewOther x y 0])
    else if ch = '@' then parseRow i (j + 1) rest (acc ++ [NewOther x y 1])
    else if ch = '%' then parseRow i (j + 1) rest (acc ++ [NewOther x y 2])
    else if ch = '~' then parseRow i (j + 1) rest (acc ++ [NewOther x y 3])
    else if ch = '.' then parseRow i (j + 1) rest acc
    else none

/-- The outer loop of `ParseLevel` over the rows from row `i` on. -/
def parseRows : Int → List String → List Other → Option (List Other)
  | _, [], acc => some acc
  | i, s :: rest, acc =>
    match parseRow i 0 s.toList acc with
    | none => none
    | some acc1 => parseRows (i + 1) rest acc1

def Game.ParseLevel (g : Game) : Option Game :=
  match parseRows 0 g.mapLevel g.others with
  | none => none
  | some os => some { g with others := os }

/-- The method `init`; `shuffle` is the permutation `rand.Shuffle` applies and
`levelData` the rows `GetLevel` reads for the level. -/
def Game.init (g : Game) (shuffle : List Int → List Int) (levelData : List String) :
    Option Game :=
  let g1 : Game := { g with enemys := [], bullets := [], others := [], enemies_left := [] }
  if g1.level - 1 < 0 then none
  else
  match levels_enemies[(g1.level - 1).toNat]? with
  | none => none
  | some row =>
    let g2 : Game := { g1 with enemies_left := g1.enemies_left ++ expandFrom 0 row }
    let g3 : Game := { g2 with enemies_left := shuffle g2.enemies_left }
    let g4 : Game := { g3 with idx := 0 }
    let g5 := g4.addPlayer
    let g6 : Game := { g5 with mapLevel := levelData }
    g6.ParseLevel

/-- The constructor `NewGame`; the nil pointer `p0` is an index outside the empty store. -/
def NewGame : Game :=
  { tanks := [], shots := [], mode := Mode.ModeTitle, p0 := 0, p1 := none, twoPlayer := false,
    bullets := [], enemys := [], castle := NewCastle, level := 1, mapLevel := [],
    others := [], enemies_left := [], idx := 0 }

/-- The loop of `GetDirection` over the candidate directions; `x` and `y` are the
variables of the same name, which keep their value from one round to the next. -/
def Game.probe (g : Game) (t : Ptr) (w0 h0 : Int) (x0 y0 : ℚ) : List Int → ℚ → ℚ → Int
  | [], _, _ => -1
  | dir :: rest, x, y =>
    let x : ℚ :=
      if dir = 1 then x0 + (g.tank t).SpeedFactor
      else if dir = 3 then x0 - (g.tank t).SpeedFactor
      else x
    let y : ℚ :=
      if dir = 0 then y0 - (g.tank t).SpeedFactor
      else if dir = 2 then y0 + (g.tank t).SpeedFactor
      else y
    let collid : Bool :=
      (decide (t ≠ g.p0) && !(g.tank g.p0).Failed
        && RectCollision (g.tank g.p0).GetInfo.1 (g.tank g.p0).GetInfo.2.1
            (g.tank g.p0).GetInfo.2.2.1 (g.tank g.p0).GetInfo.2.2.2 w0 h0 x y true)
      || (match g.p1 with
          | some p1 => decide (t ≠ p1) && !(g.tank p1).Failed
              && RectCollision (g.tank p1).GetInfo.1 (g.tank p1).GetInfo.2.1
                  (g.tank p1).GetInfo.2.2.1 (g.tank p1).GetInfo.2.2.2 w0 h0 x y true
          | none => false)
      || g.enemys.any (fun e => decide (e ≠ t)
          && RectCollision (g.tank e).GetInfo.1 (g.tank e).GetInfo.2.1
              (g.tank e).GetInfo.2.2.1 (g.tank e).GetInfo.2.2.2 w0 h0 x y true)
      || g.others.any (fun other =>
          RectCollision other.GetInfo.1 other.GetInfo.2.1
              other.GetInfo.2.2.1 other.GetInfo.2.2.2 w0 h0 x y true)
      || decide (x < 0 ∨ y < 0 ∨ x + (w0 : ℚ) > screenWidth ∨ y + (h0 : ℚ) > screenHeight)
    if collid = false then dir
    else g.probe t w0 h0 x0 y0 rest x y

/-- The method `GetDirection`; `r` is the draw `rand.Intn(2)`. -/
def Game.GetDirection (g : Game) (t : Ptr) (r : Fin 2) : Int :=
  let cur_dir := (g.tank t).Face
  let dir0 := Int.tmod ((g.tank t).Face + 1) 4
  let oppo_dir := Int.tmod ((g.tank t).Face + 2) 4
  let dir1 := Int.tmod ((g.tank t).Face + 3) 4
  let directions : List Int :=
    if r = 0 then [cur_dir, dir0, dir1, oppo_dir]
    else [cur_dir, dir1, dir0, oppo_dir]
  let (w0, h0, x0, y0) := (g.tank t).GetInfo
  g.probe t w0 h0 x0 y0 directions 0 0

/-- The keys held and pressed and the random draws of one tick. -/
structure Input where
  /-- The result of `inpututil.IsKeyJustPressed(ebiten.KeyUp)`. -/
  justUp : Bool
  justDown : Bool
  justSpace : Bool
  /-- The result of `ebiten.IsKeyPressed(ebiten.KeyW)`. -/
  keyW : Bool
  keyD : Bool
  keyS : Bool
  keyA : Bool
  justF : Bool
  keyUp : Bool
  keyRight : Bool
  keyDown : Bool
  keyLeft : Bool
  justControlRight : Bool
  /-- The draw `rand.Intn(2)` of `GetDirection` for the enemy at a pointer. -/
  coin : Ptr → Fin 2
  /-- The draw `rand.Intn(3)` of `Generate_enemy`. -/
  born : Fin 3
  /-- The draw `rand.Intn(4)` of `Generate_enemy`. -/
  face : Fin 4
  /-- The permutation applied by `rand.Shuffle` in `init`. -/
  shuffle : List Int → List Int
  /-- The rows read by `GetLevel` in `init`. -/
  levelData : List String

/-- One round of the loop of `Update` over the bullets. -/
def Game.bulletStep (g : Game) (bullet : Ptr) : Game :=
  if (g.bullet bullet).X ≤ 0 ∨ (g.bullet bullet).X ≥ screenWidth
      ∨ (g.bullet bullet).Y ≤ 0 ∨ (g.bullet bullet).Y ≥ screenHeight then
    { g with bullets := g.bullets.erase bullet }
  else
    (g.setBullet bullet (g.bullet bullet).Move).HitAndRemove bullet

/-- One round of the loop of `Update` over the enemies; `r` is the draw of `GetDirection`. -/
def Game.enemyStep (g : Game) (e : Ptr) (r : Fin 2) : Game :=
  let dir := g.GetDirection e r
  if dir = -1 then
    g.setTank e { g.tank e with Face := Int.tmod ((g.tank e).Face + 2) 2 }
  else if dir = (g.tank e).Face then
    (g.Move e).2
  else
    g.setTank e { g.tank e with Face := dir }

/-- The key handling of `Update` for the live player at `p`: the four movement
keys in the order up, right, down, left, then the fire key. -/
def Game.playerStep (g : Game) (p : Ptr) (up right down left fire : Bool) : Game :=
  if up = true then
    if (g.tank p).Face = 0 then (g.Move p).2
    else g.setTank p { g.tank p with Face := 0 }
  else if right = true then
    if (g.tank p).Face = 1 then (g.Move p).2
    else g.setTank p { g.tank p with Face := 1 }
  else if down = true then
    if (g.tank p).Face = 2 then (g.Move p).2
    else g.setTank p { g.tank p with Face := 2 }
  else if left = true then
    if (g.tank p).Face = 3 then (g.Move p).2
    else g.setTank p { g.tank p with Face := 3 }
  else if fire = true then
    let g1 : Game := { g with shots := g.shots ++ [(g.tank p).Fire p] }
    g1.addBullet g.shots.length
  else g

/-- The method `Update`: one tick. -/
def Game.Update (g : Game) (inp : Input) : Option Game :=
  match g.mode with
  | Mode.ModeTitle =>
    let g1 : Game :=
      if inp.justUp = true ∨ inp.justDown = true then { g with twoPlayer := !g.twoPlayer }
      else g
    if inp.justSpace = true then
      ({ g1 with mode := Mode.ModeGame } : Game).init inp.shuffle inp.levelData
    else some g1
  | Mode.ModeGame =>
    let g1 := g.bullets.foldl (fun s bullet => s.bulletStep bullet) g
    let g2 := g1.enemys.foldl (fun s e => s.enemyStep e (inp.coin e)) g1
    match g2.Generate_enemy inp.born inp.face with
    | none => none
    | some g3 =>
      let g4 :=
        if (g3.tank g3.p0).Failed = false then
          g3.playerStep g3.p0 inp.keyW inp.keyD inp.keyS inp.keyA inp.justF
        else g3
      let g5 :=
        match g4.p1 with
        | some p1 =>
          if (g4.tank p1).Failed = false then
            g4.playerStep p1 inp.keyUp inp.keyRight inp.keyDown inp.keyLeft
              inp.justControlRight
          else g4
        | none => g4
      some g5
  | Mode.ModeGameOver => some g

/-! ## Definitions used to state the properties -/

/-- The inclusive corner test, as a proposition. -/
def inIncl (aWidth aHeight : Int) (aX aY x y : ℚ) : Prop :=
  aX ≤ x ∧ x ≤ aX + (aWidth : ℚ) ∧ aY ≤ y ∧ y ≤ aY + (aHeight : ℚ)

/-- The strict corner test, as a proposition. -/
def inStrict (aWidth aHeight : Int) (aX aY x y : ℚ) : Prop :=
  aX < x ∧ x < aX + (aWidth : ℚ) ∧ aY < y ∧ y < aY + (aHeight : ℚ)


/-- The session after the displacement step of `Move` on a live unit, before any check. -/
def Game.displace (g : Game) (t : Ptr) : Game :=
  if (g.tank t).Face = 0 then
    g.setTank t { g.tank t with Y := (g.tank t).Y - (g.tank t).SpeedFactor }
  else if (g.tank t).Face = 1 then
    g.setTank t { g.tank t with X := (g.tank t).X + (g.tank t).SpeedFactor }
  else if (g.tank t).Face = 2 then
    g.setTank t { g.tank t with Y := (g.tank t).Y + (g.tank t).SpeedFactor }
  else
    g.setTank t { g.tank t with X := (g.tank t).X - (g.tank t).SpeedFactor }

/-- The checks of `Move` at the displaced position: a live player other than the
unit, another enemy, an obstacle, the screen bounds. -/
def Game.vetoed (g : Game) (t : Ptr) : Bool :=
  (decide (t ≠ (g.displace t).p0) && !((g.displace t).tank (g.displace t).p0).Failed
      && CheckCollision ((g.displace t).tank (g.displace t).p0) ((g.displace t).tank t) true)
  || (match (g.displace t).p1 with
      | some p1 => decide (t ≠ p1) && !((g.displace t).tank p1).Failed
          && CheckCollision ((g.displace t).tank p1) ((g.displace t).tank t) true
      | none => false)
  || (g.displace t).enemys.any (fun e => decide (e ≠ t)
      && CheckCollision ((g.displace t).tank e) ((g.displace t).tank t) true)
  || (g.displace t).others.any (fun other => CheckCollision ((g.displace t).tank t) other true)
  || (g.displace t).OutOfScreen ((g.displace t).tank t)

/-- The test of `HitAndRemove` against the player at `p`: the player is live,
does not own the bullet `b` and strictly overlaps it. -/
def Game.hitsPlayer (g : Game) (b p : Ptr) : Bool :=
  !(g.tank p).Failed && decide ((g.bullet b).Owner ≠ p)
    && CheckCollision (g.tank p) (g.bullet b) false

/-- The test of `HitAndRemove` against an obstacle. -/
def Game.hitsOther (g : Game) (b : Ptr) (other : Other) : Bool :=
  CheckCollision other (g.bullet b) false

/-- The test of `HitAndRemove` against the enemy at `e`. -/
def Game.hitsEnemy (g : Game) (b e : Ptr) : Bool :=
  decide ((g.bullet b).Owner ≠ e) && CheckCollision (g.tank e) (g.bullet b) false

/-- No player is hit by the bullet `b`. -/
def Game.noPlayerHit (g : Game) (b : Ptr) : Prop :=
  g.hitsPlayer b g.p0 = false ∧ ∀ q, g.p1 = some q → g.hitsPlayer b q = false

/-- The number of tanks of the store `ts` that are live there and marked `Failed`
in the store `ts'`. -/
def newlyFailed (ts ts' : List Tank) : Nat :=
  (ts.zip ts').countP (fun p => !p.1.Failed && p.2.Failed)

/-- The number of effects of a step from `g` to `g'`: tanks marked `Failed`,
obstacles removed, enemies removed. -/
def effects (g g' : Game) : Nat :=
  newlyFailed g.tanks g'.tanks + (g.others.length - g'.others.length)
    + (g.enemys.length - g'.enemys.length)

/-- The first `k` calls of `Generate_enemy`, one per tick, with the number of
units they released: before the call of tick `i` the rest of the program has
acted on the session by `env i`, and `r3 i`, `r4 i` are the draws of that call. -/
def spawnRun (env : Nat → Game → Game) (r3 : Nat → Fin 3) (r4 : Nat → Fin 4) :
    Nat → Game → Option (Game × Nat)
  | 0, g => some (g, 0)
  | k + 1, g =>
    match spawnRun env r3 r4 k g with
    | none => none
    | some (s, n) =>
      match (env k s).Generate_enemy (r3 k) (r4 k) with
      | none => none
      | some s' => some (s', n + (s'.enemys.length - (env k s).enemys.length))

/-- A session in play is well formed: the player pointers and the pointers of the
live enemy set point to distinct objects of the tank store, players have the
13 by 13 sprite and enemies the 13 by 15 sprite, the queue holds twenty archetype
tags between 0 and 7 and the cursor is not negative. -/
structure Game.WF (g : Game) : Prop where
  p0_lt : g.p0 < g.tanks.length
  p1_lt : ∀ q, g.p1 = some q → q < g.tanks.length ∧ q ≠ g.p0
  enemy_lt : ∀ e ∈ g.enemys, e < g.tanks.length ∧ e ≠ g.p0 ∧ g.p1 ≠ some e
  enemy_size : ∀ e ∈ g.enemys, (g.tank e).Image.Dx = 13 ∧ (g.tank e).Image.Dy = 15
  p0_size : (g.tank g.p0).Image.Dx = 13 ∧ (g.tank g.p0).Image.Dy = 13
  p1_size : ∀ q, g.p1 = some q → (g.tank q).Image.Dx = 13 ∧ (g.tank q).Image.Dy = 13
  queue_len : g.enemies_left.length = 20
  idx_nonneg : 0 ≤ g.idx
  queue_tags : ∀ ty ∈ g.enemies_left, 0 ≤ ty ∧ ty ≤ 7

/-- No two distinct enemies of the live set overlap. -/
def Game.enemiesApart (g : Game) : Prop :=
  ∀ a ∈ g.enemys, ∀ b ∈ g.enemys, a ≠ b → CheckCollision (g.tank a) (g.tank b) true = false

/-- The two players, when both are live, do not overlap, in either order of the
arguments. -/
def Game.playersApart (g : Game) : Prop :=
  ∀ q, g.p1 = some q → (g.tank g.p0).Failed = false → (g.tank q).Failed = false →
    CheckCollision (g.tank g.p0) (g.tank q) true = false
      ∧ CheckCollision (g.tank q) (g.tank g.p0) true = false

/-- A well-formed session in which units of the same kind do not overlap. -/
structure Game.Legal (g : Game) : Prop where
  wf : g.WF
  enemies : g.enemiesApart
  players : g.playersApart

/-- The pointer `t` is a unit of the session: a player or an enemy of the live set. -/
def Game.isUnit (g : Game) (t : Ptr) : Prop :=
  t ∈ g.enemys ∨ t = g.p0 ∨ g.p1 = some t

/-- The units of the session that are live: the players not `Failed` and the
enemies of the live set. -/
def Game.liveUnits (g : Game) : List Ptr :=
  (if (g.tank g.p0).Failed = false then [g.p0] else [])
    ++ (match g.p1 with
        | some q => if (g.tank q).Failed = false then [q] else []
        | none => [])
    ++ g.enemys

/-- No two distinct live units overlap, in either order of the arguments. -/
def Game.noOverlap (g : Game) : Prop :=
  ∀ a ∈ g.liveUnits, ∀ b ∈ g.liveUnits, a ≠ b →
    CheckCollision (g.tank a) (g.tank b) true = false

instance (g : Game) : Decidable g.noOverlap := by
  unfold Game.noOverlap
  infer_instance

/-- The step from `g` to `g'` moves no tank, revives none and adds no enemy. -/
structure Game.Frame (g g' : Game) : Prop where
  tanks_len : g'.tanks.length = g.tanks.length
  image : ∀ i, (g'.tank i).Image = (g.tank i).Image
  posX : ∀ i, (g'.tank i).X = (g.tank i).X
  posY : ∀ i, (g'.tank i).Y = (g.tank i).Y
  failed : ∀ i, (g.tank i).Failed = true → (g'.tank i).Failed = true
  p0 : g'.p0 = g.p0
  p1 : g'.p1 = g.p1
  enemys : ∀ e ∈ g'.enemys, e ∈ g.enemys
  queue : g'.enemies_left = g.enemies_left
  idx : g'.idx = g.idx

/-- The session after `Generate_enemy` released the candidate `e`: the candidate is
a new object of the tank store, its pointer joins the live set and the cursor
advances. -/
def Game.spawned (g : Game) (e : Tank) : Game :=
  { g with tanks := g.tanks ++ [e], enemys := g.enemys ++ [g.tanks.length], idx := g.idx + 1 }

/-- The area of the intersection of the rectangles of two boxes. -/
def overlapArea (aWidth aHeight : Int) (aX aY : ℚ) (bWidth bHeight : Int) (bX bY : ℚ) : ℚ :=
  max 0 (min (aX + (aWidth : ℚ)) (bX + (bWidth : ℚ)) - max aX bX)
    * max 0 (min (aY + (aHeight : ℚ)) (bY + (bHeight : ℚ)) - max aY bY)

/-- The direction of the movement input of a player: the first key held in the
order in which `Update` tests them, up, right, down, left. -/
def inputDir (up right down left : Bool) : Option Int :=
  if up = true then some 0
  else if right = true then some 1
  else if down = true then some 2
  else if left = true then some 3
  else none

/-- The session after the ticks of `Update` for a list of inputs, one tick per input. -/
def runTicks : List Input → Game → Option Game
  | [], g => some g
  | inp :: rest, g =>
    match g.Update inp with
    | none => none
    | some g' => runTicks rest g'

/-- The pointer `p` is a live player of the session. -/
def Game.isLivePlayer (g : Game) (p : Ptr) : Prop :=
  (p = g.p0 ∨ g.p1 = some p) ∧ (g.tank p).Failed = false

/-- No corner of an enemy of the live set whose pointer is below `n` lies in the
box of a live player. -/
def Game.cornersClear (g : Game) (n : Nat) : Prop :=
  ∀ p, g.isLivePlayer p → ∀ e ∈ g.enemys, e < n →
    CheckCollision (g.tank p) (g.tank e) true = false

/-- A tick input with no key held or pressed and every draw zero. -/
def noKeys : Input :=
  { justUp := false, justDown := false, justSpace := false, keyW := false, keyD := false,
    keyS := false, keyA := false, justF := false, keyUp := false, keyRight := false,
    keyDown := false, keyLeft := false, justControlRight := false,
    coin := fun _ => 0, born := 0, face := 0, shuffle := fun l => l, levelData := [] }

/-- A one-player session in play on an empty map with every enemy already released:
the player stands at its start position `(144, 384)` facing up. -/
def openField : Game :=
  { tanks := [NewPlayer 0], shots := [], mode := Mode.ModeGame, p0 := 0, p1 := none,
    twoPlayer := false, bullets := [], enemys := [], castle := NewCastle, level := 1,
    mapLevel := [], others := [], enemies_left := List.replicate 20 0, idx := 20 }

/-- The session `openField` with the player at `(144, 390)` facing down: its box
ends on the lower screen edge `416`. -/
def atBottom : Game :=
  { openField with tanks := [{ NewPlayer 0 with Y := 390, Face := 2 }] }

/-- A one-player session in play on an empty map: the player at its start
position, the enemy `1` at `(100, 100)` facing up and the enemy `2` half a pixel
above it, at `(100, 139/2)`, so that its box ends at `Y = 199/2`. -/
def blockedAbove : Game :=
  { openField with
    tanks := [NewPlayer 0, NewEnemy 0 0 100 100, NewEnemy 1 2 100 (139 / 2)],
    enemys := [1, 2] }

/-- A one-player session in play on an empty map in which the enemy `1`, at
`(199/2, 100)` facing up, is boxed in: the player stands half a pixel to its left,
at `(73, 100)`, and the enemies `2`, `3` and `4` half a pixel above it, to its
right and below it. -/
def boxedIn : Game :=
  { openField with
    tanks := [{ NewPlayer 0 with X := 73, Y := 100 }, NewEnemy 0 0 (199 / 2) 100,
      NewEnemy 1 2 (199 / 2) (139 / 2), NewEnemy 2 3 126 100,
      NewEnemy 3 0 (199 / 2) (261 / 2)],
    enemys := [1, 2, 3, 4] }

/-- A one-player session in play on an empty map in which the enemy `1` stands in
the upper left screen corner `(0, 0)` facing up, with the enemy `2` half a pixel to
its right and the enemy `3` half a pixel below it. -/
def cornered : Game :=
  { openField with
    tanks := [NewPlayer 0, NewEnemy 0 0 0 0, NewEnemy 1 1 (53 / 2) 0,
      NewEnemy 2 2 0 (61 / 2)],
    enemys := [1, 2, 3] }

/-- A two-player session in play on an empty map at the start of a level: the
first player at its start position, the second player at the spawn point `(3, 3)`,
no enemy released yet. -/
def secondAtSpawn : Game :=
  { openField with
    tanks := [NewPlayer 0, { NewPlayer 1 with X := 3, Y := 3 }],
    p1 := some 1, twoPlayer := true, idx := 0 }

/-- A one-player session in play: the player at its start position `(144, 384)`,
a brick obstacle at the same place, the enemy `1` at `(192, 3)`, and the bullet `0`
of that enemy at `(150, 390)`, strictly inside the boxes of both the player and the
obstacle. -/
def crossfire : Game :=
  { openField with
    tanks := [NewPlayer 0, NewEnemy 0 2 192 3],
    shots := [{ (NewEnemy 0 2 192 3).Fire 1 with X := 150, Y := 390 }],
    bullets := [0], enemys := [1], others := [NewOther 144 384 0] }

/-- The session `openField` at the start of a level whose composition is
`{2, 0, 0, 0}`: the queue holds two units and none is released yet. -/
def twoQueued : Game :=
  { openField with enemies_left := expandFrom 0 [2, 0, 0, 0], idx := 0 }

/-- The session `openField` at the start of a level of twenty enemies. -/
def levelStart : Game := { openField with idx := 0 }

/-- Between two spawn calls every enemy is destroyed and the player is back at its
start position; the queue and the cursor are left alone. -/
def clearField (_i : Nat) (s : Game) : Game :=
  { openField with enemies_left := s.enemies_left, idx := s.idx }

/-- The session `openField` with the player facing right. -/
def facingRight : Game :=
  { openField with tanks := [{ NewPlayer 0 with Face := 1 }] }

/-- The session `openField` with the player destroyed. -/
def playerDown : Game :=
  { openField with tanks := [{ NewPlayer 0 with Failed := true }] }

/-- The session `levelStart` after the first enemy was released at the spawn point
`(3, 3)`, where it still stands. -/
def spawnBusy : Game :=
  { openField with tanks := [NewPlayer 0, NewEnemy 0 2 3 3], enemys := [1], idx := 1 }

/-- A one-player session in play: the enemy `1` stands in the upper left screen
corner `(0, 0)` and the bullet `0`, fired by the player and flying left, is at
`(0, 10)`, on the left screen edge and with its right corners strictly inside the
enemy's box. -/
def edgeShot : Game :=
  { openField with
    tanks := [NewPlayer 0, NewEnemy 0 2 0 0],
    shots := [{ (NewPlayer 0).Fire 0 with X := 0, Y := 10, F := 3 }],
    bullets := [0], enemys := [1] }

/-- A one-player session in play with a steel, a water and a grass obstacle and
three bullets of the player, one strictly inside each obstacle. -/
def hardTargets : Game :=
  { openField with
    shots := [{ (NewPlayer 0).Fire 0 with X := 100, Y := 100 },
      { (NewPlayer 0).Fire 0 with X := 164, Y := 100 },
      { (NewPlayer 0).Fire 0 with X := 228, Y := 100 }],
    bullets := [0, 1, 2],
    others := [NewOther 96 96 1, NewOther 160 96 2, NewOther 224 96 3] }

/-- A two-player session in play on an empty map with every enemy released and both
players destroyed. -/
def bothDown : Game :=
  { openField with
    tanks := [{ NewPlayer 0 with Failed := true }, { NewPlayer 1 with Failed := true }],
    p1 := some 1, twoPlayer := true }

/-- The session `openField` with one enemy, standing in the upper left screen
corner `(0, 0)` and facing up. -/
def loneCorner : Game :=
  { openField with tanks := [NewPlayer 0, NewEnemy 0 0 0 0], enemys := [1] }

/-- A player whose box has its upper left corner at `(29, 33)`, the lower right
corner of the box of an enemy at the spawn point `(3, 3)`. -/
def playerAtCorner : Tank := { NewPlayer 0 with X := 29, Y := 33 }

/-- A session on the title screen set to the level 4, whose composition is
`{2, 5, 10, 3}`. -/
def levelFour : Game := { NewGame with level := 4 }

/-- A two-player session in play on an empty map: the second player is destroyed
at its start position `(243, 384)` and the bullet `0` of the first player is at
`(250, 394)`, strictly inside the box of the destroyed player. -/
def wreckInPath : Game :=
  { openField with
    tanks := [NewPlayer 0, { NewPlayer 1 with Failed := true }],
    shots := [{ (NewPlayer 0).Fire 0 with X := 250, Y := 394, F := 1 }],
    bullets := [0], p1 := some 1, twoPlayer := true }

/-! ## The collision kernel -/

theorem ite_true_eq_true (c : Prop) [Decidable c] (b : Bool) :
    ((if c then true else b) = true) ↔ (c ∨ b = true) := by
  by_cases h : c <;> simp [h]

theorem inStrict_inIncl {aWidth aHeight : Int} {aX aY x y : ℚ}
    (h : inStrict aWidth aHeight aX aY x y) : inIncl aWidth aHeight aX aY x y :=
  ⟨h.1.le, h.2.1.le, h.2.2.1.le, h.2.2.2.le⟩

theorem RectCollision_true (aWidth aHeight : Int) (aX aY : ℚ) (bWidth bHeight : Int)
    (bX bY : ℚ) :
    RectCollision aWidth aHeight aX aY bWidth bHeight bX bY true = true ↔
      (inIncl aWidth aHeight aX aY bX bY
        ∨ inIncl aWidth aHeight aX aY (bX + (bWidth : ℚ)) bY
        ∨ inIncl aWidth aHeight aX aY bX (bY + (bHeight : ℚ))
        ∨ inIncl aWidth aHeight aX aY (bX + (bWidth : ℚ)) (bY + (bHeight : ℚ))) := by
  unfold RectCollision
  simp only [ite_true_eq_true, true_and, ge_iff_le, gt_iff_lt, Bool.false_eq_true, or_false]
  constructor
  · rintro (h | h | h | h | h | h | h | h)
    · exact Or.inl ⟨h.2.2.1, h.2.2.2, h.1, h.2.1⟩
    · exact Or.inl ⟨h.2.2.1.le, h.2.2.2.le, h.1.le, h.2.1.le⟩
    · exact Or.inr (Or.inl ⟨h.2.2.1, h.2.2.2, h.1, h.2.1⟩)
    · exact Or.inr (Or.inl ⟨h.2.2.1.le, h.2.2.2.le, h.1.le, h.2.1.le⟩)
    · exact Or.inr (Or.inr (Or.inl ⟨h.2.2.1, h.2.2.2, h.1, h.2.1⟩))
    · exact Or.inr (Or.inr (Or.inl ⟨h.2.2.1.le, h.2.2.2.le, h.1.le, h.2.1.le⟩))
    · exact Or.inr (Or.inr (Or.inr ⟨h.2.2.1, h.2.2.2, h.1, h.2.1⟩))
    · exact Or.inr (Or.inr (Or.inr ⟨h.2.2.1.le, h.2.2.2.le, h.1.le, h.2.1.le⟩))
  · rintro (h | h | h | h)
    · exact Or.inl ⟨h.2.2.1, h.2.2.2, h.1, h.2.1⟩
    · exact Or.inr (Or.inr (Or.inl ⟨h.2.2.1, h.2.2.2, h.1, h.2.1⟩))
    · exact Or.inr (Or.inr (Or.inr (Or.inr (Or.inl ⟨h.2.2.1, h.2.2.2, h.1, h.2.1⟩))))
    · exact Or.inr (Or.inr (Or.inr (Or.inr (Or.inr (Or.inr (Or.inl ⟨h.2.2.1, h.2.2.2, h.1, h.2.1⟩))))))

theorem RectCollision_false (aWidth aHeight : Int) (aX aY : ℚ) (bWidth bHeight : Int)
    (bX bY : ℚ) :
    RectCollision aWidth aHeight aX aY bWidth bHeight bX bY false = true ↔
      (inStrict aWidth aHeight aX aY bX bY
        ∨ inStrict aWidth aHeight aX aY (bX + (bWidth : ℚ)) bY
        ∨ inStrict aWidth aHeight aX aY bX (bY + (bHeight : ℚ))
        ∨ inStrict aWidth aHeight aX aY (bX + (bWidth : ℚ)) (bY + (bHeight : ℚ))) := by
  unfold RectCollision
  simp only [ite_true_eq_true, Bool.false_eq_true, false_and, false_or, ge_iff_le, gt_iff_lt,
    or_false]
  constructor
  · rintro (h | h | h | h)
    · exact Or.inl ⟨h.2.2.1, h.2.2.2, h.1, h.2.1⟩
    · exact Or.inr (Or.inl ⟨h.2.2.1, h.2.2.2, h.1, h.2.1⟩)
    · exact Or.inr (Or.inr (Or.inl ⟨h.2.2.1, h.2.2.2, h.1, h.2.1⟩))
    · exact Or.inr (Or.inr (Or.inr ⟨h.2.2.1, h.2.2.2, h.1, h.2.1⟩))
  · rintro (h | h | h | h)
    · exact Or.inl ⟨h.2.2.1, h.2.2.2, h.1, h.2.1⟩
    · exact Or.inr (Or.inl ⟨h.2.2.1, h.2.2.2, h.1, h.2.1⟩)
    · exact Or.inr (Or.inr (Or.inl ⟨h.2.2.1, h.2.2.2, h.1, h.2.1⟩))
    · exact Or.inr (Or.inr (Or.inr ⟨h.2.2.1, h.2.2.2, h.1, h.2.1⟩))

theorem liesIn_true (aWidth aHeight : Int) (aX aY x y : ℚ) :
    liesIn aWidth aHeight aX aY true x y ↔ inIncl aWidth aHeight aX aY x y := by
  simp [liesIn, inIncl]

theorem liesIn_false (aWidth aHeight : Int) (aX aY x y : ℚ) :
    liesIn aWidth aHeight aX aY false x y ↔ inStrict aWidth aHeight aX aY x y := by
  simp [liesIn, inStrict]

/-- C1: `RectCollision` of the boxes A and B returns true if and only if at least
one of B's four corners `(bX, bY)`, `(bX + bWidth, bY)`, `(bX, bY + bHeight)`,
`(bX + bWidth, bY + bHeight)` lies in A's rectangle, where the bounds of the
rectangle count when `eqa` is true and do not count when it is false. -/
theorem RectCollision_iff_corner (aWidth aHeight : Int) (aX aY : ℚ) (bWidth bHeight : Int)
    (bX bY : ℚ) (eqa : Bool) :
    RectCollision aWidth aHeight aX aY bWidth bHeight bX bY eqa = true ↔
      (liesIn aWidth aHeight aX aY eqa bX bY
        ∨ liesIn aWidth aHeight aX aY eqa (bX + (bWidth : ℚ)) bY
        ∨ liesIn aWidth aHeight aX aY eqa bX (bY + (bHeight : ℚ))
        ∨ liesIn aWidth aHeight aX aY eqa (bX + (bWidth : ℚ)) (bY + (bHeight : ℚ))) := by
  cases eqa
  · simp only [liesIn_false]
    exact RectCollision_false aWidth aHeight aX aY bWidth bHeight bX bY
  · simp only [liesIn_true]
    exact RectCollision_true aWidth aHeight aX aY bWidth bHeight bX bY


/-! ## Boxes of equal size -/

theorem CheckCollision_tank (a b : Tank) :
    CheckCollision a b true =
      RectCollision (a.Image.Dx * 2) (a.Image.Dy * 2) a.X a.Y
        (b.Image.Dx * 2) (b.Image.Dy * 2) b.X b.Y true := rfl

/-- For two boxes of the same size the inclusive corner test says that the
positions differ by at most the width and at most the height. -/
theorem RectCollision_same_size (w h : Int) (aX aY bX bY : ℚ) (hw : 0 ≤ w) (hh : 0 ≤ h) :
    RectCollision w h aX aY w h bX bY true = true ↔
      (aX - (w : ℚ) ≤ bX ∧ bX ≤ aX + (w : ℚ) ∧ aY - (h : ℚ) ≤ bY ∧ bY ≤ aY + (h : ℚ)) := by
  have hwq : (0 : ℚ) ≤ (w : ℚ) := by exact_mod_cast hw
  have hhq : (0 : ℚ) ≤ (h : ℚ) := by exact_mod_cast hh
  rw [RectCollision_true]
  unfold inIncl
  constructor
  · rintro (⟨h1, h2, h3, h4⟩ | ⟨h1, h2, h3, h4⟩ | ⟨h1, h2, h3, h4⟩ | ⟨h1, h2, h3, h4⟩) <;>
      refine ⟨?_, ?_, ?_, ?_⟩ <;> linarith
  · rintro ⟨h1, h2, h3, h4⟩
    rcases le_total aX bX with hx | hx <;> rcases le_total aY bY with hy | hy
    · exact Or.inl ⟨hx, h2, hy, h4⟩
    · exact Or.inr (Or.inr (Or.inl ⟨hx, h2, by linarith, by linarith⟩))
    · exact Or.inr (Or.inl ⟨by linarith, by linarith, hy, h4⟩)
    · exact Or.inr (Or.inr (Or.inr ⟨by linarith, by linarith, by linarith, by linarith⟩))

/-- For two tanks of the same size the inclusive test does not depend on the
order of its arguments. -/
theorem CheckCollision_symm (a b : Tank) (hw : b.Image.Dx = a.Image.Dx)
    (hh : b.Image.Dy = a.Image.Dy) (hw0 : 0 ≤ a.Image.Dx) (hh0 : 0 ≤ a.Image.Dy) :
    CheckCollision a b true = CheckCollision b a true := by
  have h1 := RectCollision_same_size (a.Image.Dx * 2) (a.Image.Dy * 2) a.X a.Y b.X b.Y
    (by omega) (by omega)
  have h2 := RectCollision_same_size (a.Image.Dx * 2) (a.Image.Dy * 2) b.X b.Y a.X a.Y
    (by omega) (by omega)
  rw [CheckCollision_tank, CheckCollision_tank, hw, hh]
  rw [Bool.eq_iff_iff, h1, h2]
  constructor <;> rintro ⟨h1, h2, h3, h4⟩ <;> refine ⟨?_, ?_, ?_, ?_⟩ <;> linarith

/-- Two tanks of the same size that the spawn check finds not too close do not
overlap, in either order of the arguments. -/
theorem NotSafe_false_apart (a b : Tank) (hw : b.Image.Dx = a.Image.Dx)
    (hh : b.Image.Dy = a.Image.Dy) (hw0 : 0 ≤ a.Image.Dx) (hh0 : 0 ≤ a.Image.Dy)
    (h : NotSafe a b = false) :
    CheckCollision a b true = false ∧ CheckCollision b a true = false := by
  have hsymm := CheckCollision_symm a b hw hh hw0 hh0
  have key : CheckCollision a b true = false := by
    rw [Bool.eq_false_iff]
    intro hc
    rw [CheckCollision_tank, hw, hh] at hc
    rw [RectCollision_same_size _ _ _ _ _ _ (by omega) (by omega)] at hc
    obtain ⟨h1, h2, h3, h4⟩ := hc
    have hwq : (0 : ℚ) ≤ (a.Image.Dx : ℚ) := by exact_mod_cast hw0
    have hhq : (0 : ℚ) ≤ (a.Image.Dy : ℚ) := by exact_mod_cast hh0
    simp only [NotSafe, Tank.GetInfo, hw, hh] at h
    push_cast at h h1 h2 h3 h4
    have hlt : ¬ ((a.X + (a.Image.Dx : ℚ) * 2 / 2 - (b.X + (a.Image.Dx : ℚ) * 2 / 2)) ^ 2
        + (a.Y + (a.Image.Dy : ℚ) * 2 / 2 - (b.Y + (a.Image.Dy : ℚ) * 2 / 2)) ^ 2
        ≤ ((a.Image.Dx : ℚ) * 2) ^ 2 + ((a.Image.Dy : ℚ) * 2) ^ 2) := by
      intro hle
      rw [if_pos hle] at h
      exact Bool.noConfusion h
    apply hlt
    have e1 : (a.X + (a.Image.Dx : ℚ) * 2 / 2 - (b.X + (a.Image.Dx : ℚ) * 2 / 2)) = a.X - b.X := by
      ring
    have e2 : (a.Y + (a.Image.Dy : ℚ) * 2 / 2 - (b.Y + (a.Image.Dy : ℚ) * 2 / 2)) = a.Y - b.Y := by
      ring
    rw [e1, e2]
    have hx : (a.X - b.X) ^ 2 ≤ ((a.Image.Dx : ℚ) * 2) ^ 2 := by
      apply sq_le_sq'
      · linarith
      · linarith
    have hy : (a.Y - b.Y) ^ 2 ≤ ((a.Image.Dy : ℚ) * 2) ^ 2 := by
      apply sq_le_sq'
      · linarith
      · linarith
    linarith
  exact ⟨key, by rw [← hsymm]; exact key⟩

/-! ## The movement resolver -/

theorem List.set_getD_self {α : Type} (l : List α) (n : Nat) (d : α) :
    l.set n (l.getD n d) = l := by
  induction l generalizing n with
  | nil => simp
  | cons a l ih =>
    cases n with
    | zero => simp
    | succ n => simpa using ih n

theorem Game.setTank_tank_self (g : Game) (p : Ptr) : g.setTank p (g.tank p) = g := by
  cases g
  simp only [Game.setTank, Game.tank, List.set_getD_self]

theorem Game.setTank_setTank (g : Game) (p : Ptr) (a b : Tank) :
    (g.setTank p a).setTank p b = g.setTank p b := by
  simp [Game.setTank, List.set_set]

theorem Game.setTank_tank_of_lt (g : Game) (p : Ptr) (a : Tank) (h : p < g.tanks.length) :
    (g.setTank p a).tank p = a := by
  simp [Game.setTank, Game.tank, List.getD_eq_getElem?_getD, h]

theorem Game.setTank_of_le (g : Game) (p : Ptr) (a : Tank) (h : g.tanks.length ≤ p) :
    g.setTank p a = g := by
  cases g
  simp only [Game.setTank] at h ⊢
  congr 1
  exact List.set_eq_of_length_le h

/-- Rolling the position of the displaced unit back restores the session. -/
theorem Game.rollback (g : Game) (t : Ptr) :
    (g.displace t).setTank t
      { (g.displace t).tank t with X := (g.tank t).X, Y := (g.tank t).Y } = g := by
  rcases Nat.lt_or_ge t g.tanks.length with h | h
  · have key : ∀ a : Tank, a.enemy = (g.tank t).enemy → a.Image = (g.tank t).Image →
        a.Face = (g.tank t).Face → a.SpeedFactor = (g.tank t).SpeedFactor →
        a.Failed = (g.tank t).Failed →
        (g.setTank t a).setTank t
          { (g.setTank t a).tank t with X := (g.tank t).X, Y := (g.tank t).Y } = g := by
      intro a h1 h2 h3 h4 h5
      rw [Game.setTank_tank_of_lt g t a h, Game.setTank_setTank]
      have : ({ a with X := (g.tank t).X, Y := (g.tank t).Y } : Tank) = g.tank t := by
        cases a
        cases hg : g.tank t
        simp_all
      rw [this, Game.setTank_tank_self]
    unfold Game.displace
    split_ifs <;> exact key _ rfl rfl rfl rfl rfl
  · have hd : g.displace t = g := by
      unfold Game.displace
      split_ifs <;> exact Game.setTank_of_le g t _ h
    rw [hd, Game.setTank_of_le g t _ h]

/-- The three outcomes of `Move`: nothing on a destroyed unit, the unchanged
session and `true` on a veto, the displaced session and `false` otherwise. -/
theorem Game.Move_eq (g : Game) (t : Ptr) :
    g.Move t =
      if (g.tank t).Failed = true then (false, g)
      else if g.vetoed t = true then (true, g)
      else (false, g.displace t) := by
  by_cases hf : (g.tank t).Failed = true
  · simp [Game.Move, hf]
  · have hM : ∀ back : Game, back = (g.displace t).setTank t
          { (g.displace t).tank t with X := (g.tank t).X, Y := (g.tank t).Y } →
        g.Move t =
        if (decide (t ≠ (g.displace t).p0) && !((g.displace t).tank (g.displace t).p0).Failed
            && CheckCollision ((g.displace t).tank (g.displace t).p0) ((g.displace t).tank t)
              true) = true then (true, back)
        else if (match (g.displace t).p1 with
            | some p1 => decide (t ≠ p1) && !((g.displace t).tank p1).Failed
                && CheckCollision ((g.displace t).tank p1) ((g.displace t).tank t) true
            | none => false) = true then (true, back)
        else if (g.displace t).enemys.any (fun e => decide (e ≠ t)
            && CheckCollision ((g.displace t).tank e) ((g.displace t).tank t) true) = true then
          (true, back)
        else if (g.displace t).others.any
            (fun other => CheckCollision ((g.displace t).tank t) other true) = true then
          (true, back)
        else if (g.displace t).OutOfScreen ((g.displace t).tank t) = true then (true, back)
        else (false, g.displace t) := by
      intro back hback
      subst hback
      unfold Game.Move
      rw [if_neg hf]
      rfl
    rw [hM g (Game.rollback g t).symm, if_neg hf]
    unfold Game.vetoed
    generalize (decide (t ≠ (g.displace t).p0) && !((g.displace t).tank (g.displace t).p0).Failed
            && CheckCollision ((g.displace t).tank (g.displace t).p0) ((g.displace t).tank t)
              true) = a
    generalize (match (g.displace t).p1 with
            | some p1 => decide (t ≠ p1) && !((g.displace t).tank p1).Failed
                && CheckCollision ((g.displace t).tank p1) ((g.displace t).tank t) true
            | none => false) = b
    generalize (g.displace t).enemys.any (fun e => decide (e ≠ t)
            && CheckCollision ((g.displace t).tank e) ((g.displace t).tank t) true) = c
    generalize (g.displace t).others.any
            (fun other => CheckCollision ((g.displace t).tank t) other true) = d
    generalize (g.displace t).OutOfScreen ((g.displace t).tank t) = e
    cases a <;> cases b <;> cases c <;> cases d <;> cases e <;> rfl

/-- C3: `Move` is atomic on rejection.  When a check of `Move` on a live unit
finds a collision with a live player, another enemy or an obstacle, or finds
the unit outside the screen, the session after the call is the session before
it: the unit's `X`, `Y` and `Face` are as before and nothing else changed. -/
theorem Move_rejection_atomic (g : Game) (t : Ptr) (hlive : (g.tank t).Failed = false)
    (hveto : g.vetoed t = true) :
    (g.Move t).2 = g
      ∧ ((g.Move t).2.tank t).X = (g.tank t).X
      ∧ ((g.Move t).2.tank t).Y = (g.tank t).Y
      ∧ ((g.Move t).2.tank t).Face = (g.tank t).Face := by
  have h : (g.Move t).2 = g := by
    rw [Game.Move_eq]
    simp [hlive, hveto]
  rw [h]
  exact ⟨rfl, rfl, rfl, rfl⟩

/-- The atomic rejection at the lower screen edge. -/
theorem Move_rejection_atomic_witness :
    (atBottom.tank 0).Failed = false ∧ atBottom.vetoed 0 = true
      ∧ ((atBottom.Move 0).2 = atBottom
        ∧ ((atBottom.Move 0).2.tank 0).X = (atBottom.tank 0).X
        ∧ ((atBottom.Move 0).2.tank 0).Y = (atBottom.tank 0).Y
        ∧ ((atBottom.Move 0).2.tank 0).Face = (atBottom.tank 0).Face) :=
  ⟨by decide!, by decide!, Move_rejection_atomic atBottom 0 (by decide!) (by decide!)⟩

/-- C4, as stated, fails: on the open field `Move` returns `false` although it
moved the player from `Y = 384` to `Y = 383`, and at the lower screen edge it
returns `true` although the position was rolled back. -/
theorem Move_flag_counterexample :
    ((openField.Move 0).1 = false
        ∧ (openField.tank 0).Y = 384 ∧ ((openField.Move 0).2.tank 0).Y = 383)
      ∧ ((atBottom.Move 0).1 = true ∧ (atBottom.Move 0).2 = atBottom) := by
  decide!

/-- C4, amended: the boolean returned by `Move` is the veto flag.  It is `true`
exactly when the unit is live and a collision or out-of-screen check rejected
the step, and then the session is unchanged; it is `false` when the unit is
destroyed, with the session unchanged, and when the step was committed, with
the unit displaced. -/
theorem Move_flag_is_veto (g : Game) (t : Ptr) :
    ((g.Move t).1 = true ↔ ((g.tank t).Failed = false ∧ g.vetoed t = true))
      ∧ (g.Move t).2 =
          (if (g.Move t).1 = true then g
           else if (g.tank t).Failed = true then g
           else g.displace t) := by
  rw [Game.Move_eq]
  by_cases hf : (g.tank t).Failed = true
  · simp [hf]
  · by_cases hv : g.vetoed t = true
    · simp [hf, hv]
    · simp [hf, hv]

/-! ## The direction selector -/

/-- C5 fails on the code: in `blockedAbove` the selector returns the direction
`0` for the enemy `1` on both outcomes of the draw, although the box one step up
from the enemy's position `(100, 100)` touches the enemy `2` and `Move` rejects the
step.  The selector probed the box at `(0, 199/2)`: its variable `x` is never
set to `x0`. -/
theorem GetDirection_returns_blocked_direction :
    (blockedAbove.tank 1).Face = 0
      ∧ blockedAbove.GetDirection 1 0 = 0 ∧ blockedAbove.GetDirection 1 1 = 0
      ∧ CheckCollision (blockedAbove.tank 2)
          ({ blockedAbove.tank 1 with Y := (blockedAbove.tank 1).Y
              - (blockedAbove.tank 1).SpeedFactor } : Tank) true = true
      ∧ blockedAbove.vetoed 1 = true
      ∧ blockedAbove.Move 1 = (true, blockedAbove) := by
  decide!

/-- C6 fails on the code: in `boxedIn` each of the four one-step displacements of
the enemy `1` is rejected by `Move`, yet the selector returns the direction `0`,
not `-1`, on both outcomes of the draw. -/
theorem GetDirection_boxed_in_returns_direction :
    (∀ d ∈ [(0 : Int), 1, 2, 3],
        (boxedIn.setTank 1 { boxedIn.tank 1 with Face := d }).vetoed 1 = true)
      ∧ boxedIn.GetDirection 1 0 = 0 ∧ boxedIn.GetDirection 1 1 = 0 := by
  decide!

/-- C9 fails on the code: in `cornered` the selector reports `-1` for the enemy
`1`, which faces `0`, on both outcomes of the draw, and the round of the enemy loop
leaves it facing `0` at the same position, where `(0 + 2) mod 4 = 2`; the tick as a
whole does the same. -/
theorem enemy_reverse_keeps_face :
    (cornered.tank 1).Face = 0
      ∧ cornered.GetDirection 1 0 = -1 ∧ cornered.GetDirection 1 1 = -1
      ∧ ((cornered.enemyStep 1 0).tank 1).Face = 0
      ∧ ((cornered.enemyStep 1 1).tank 1).Face = 0
      ∧ ((cornered.enemyStep 1 0).tank 1).X = 0 ∧ ((cornered.enemyStep 1 0).tank 1).Y = 0
      ∧ (cornered.Update noKeys).map (fun g => (g.tank 1).Face) = some 0
      ∧ Int.tmod ((cornered.tank 1).Face + 2) 4 = 2 := by
  decide!

/-! ## The spawn controller -/

/-- C10 fails on the code: in `secondAtSpawn` the candidate spawned at `(3, 3)` is
too close to the live second player, which stands there, yet `PosConflict` is
false, because its second test reads the first player again, and `Generate_enemy`
adds the candidate to the live set. -/
theorem spawn_ignores_second_player :
    secondAtSpawn.p1 = some 1 ∧ (secondAtSpawn.tank 1).Failed = false
      ∧ NotSafe (secondAtSpawn.tank 1) (NewEnemy 0 0 3 3) = true
      ∧ secondAtSpawn.PosConflict (NewEnemy 0 0 3 3) = false
      ∧ (secondAtSpawn.Generate_enemy 0 0).map (fun g => (g.enemys, g.idx, g.tank 2))
          = some ([2], 1, NewEnemy 0 0 3 3) := by
  decide!

/-! ## Projectile hits -/

theorem newlyFailed_self (l : List Tank) : newlyFailed l l = 0 := by
  induction l with
  | nil => rfl
  | cons a l ih =>
    simp only [newlyFailed, List.zip_cons_cons, List.countP_cons] at ih ⊢
    simp [ih]

theorem newlyFailed_set (l : List Tank) (p : Nat) (t : Tank) (hp : p < l.length)
    (hlive : (l.getD p default).Failed = false) (ht : t.Failed = true) :
    newlyFailed l (l.set p t) = 1 := by
  induction l generalizing p with
  | nil => simp at hp
  | cons a l ih =>
    cases p with
    | zero =>
      have h0 := newlyFailed_self l
      simp only [newlyFailed] at h0
      simp only [List.getD_cons_zero] at hlive
      simp [newlyFailed, List.countP_cons, h0, hlive, ht]
    | succ p =>
      have hp1 : p < l.length := by simpa using hp
      have hl : (l.getD p default).Failed = false := by simpa using hlive
      have h1 := ih p hp1 hl
      simp only [newlyFailed] at h1
      simp [newlyFailed, List.countP_cons, h1]

/-- The five outcomes of `HitAndRemove`, in the order of its tests. -/
theorem Game.HitAndRemove_eq (g : Game) (b : Ptr) :
    (g.hitsPlayer b g.p0 = true ∧ g.HitAndRemove b =
        { g.setTank g.p0 { g.tank g.p0 with Failed := true } with
          bullets := g.bullets.erase b })
    ∨ (g.hitsPlayer b g.p0 = false ∧ ∃ q, g.p1 = some q ∧ g.hitsPlayer b q = true
        ∧ g.HitAndRemove b =
          { g.setTank q { g.tank q with Failed := true } with bullets := g.bullets.erase b })
    ∨ (g.noPlayerHit b ∧ ∃ other, g.others.find? (g.hitsOther b) = some other
        ∧ g.HitAndRemove b =
          { g with others := g.others.erase other, bullets := g.bullets.erase b })
    ∨ (g.noPlayerHit b ∧ g.others.find? (g.hitsOther b) = none
        ∧ ∃ e, g.enemys.find? (g.hitsEnemy b) = some e
        ∧ g.HitAndRemove b =
          { g with enemys := g.enemys.erase e, bullets := g.bullets.erase b })
    ∨ (g.noPlayerHit b ∧ g.others.find? (g.hitsOther b) = none
        ∧ g.enemys.find? (g.hitsEnemy b) = none ∧ g.HitAndRemove b = g) := by
  by_cases h0 : g.hitsPlayer b g.p0 = true
  · left
    refine ⟨h0, ?_⟩
    unfold Game.hitsPlayer at h0
    unfold Game.HitAndRemove
    rw [if_pos h0]
  · right
    have h0' : g.hitsPlayer b g.p0 = false := by simpa using h0
    have hstep : g.HitAndRemove b =
        match g.p1.filter (fun p1 => g.hitsPlayer b p1) with
        | some p1 =>
          { g.setTank p1 { g.tank p1 with Failed := true } with bullets := g.bullets.erase b }
        | none =>
        match g.others.find? (g.hitsOther b) with
        | some other => { g with others := g.others.erase other, bullets := g.bullets.erase b }
        | none =>
        match g.enemys.find? (g.hitsEnemy b) with
        | some e => { g with enemys := g.enemys.erase e, bullets := g.bullets.erase b }
        | none => g := by
      unfold Game.hitsPlayer at h0
      unfold Game.HitAndRemove
      rw [if_neg h0]
      rfl
    rw [hstep]
    cases hp1 : g.p1 with
    | some q =>
      by_cases hq : g.hitsPlayer b q = true
      · left
        refine ⟨h0', q, rfl, hq, ?_⟩
        simp [Option.filter, hq]
      · right
        have hq' : g.hitsPlayer b q = false := by simpa using hq
        have hnp : g.noPlayerHit b := ⟨h0', fun q' hq'' => by
          rw [hp1] at hq''
          cases hq''
          exact hq'⟩
        simp only [Option.filter, hq', Bool.false_eq_true, if_false]
        cases ho : g.others.find? (g.hitsOther b) with
        | some other => exact Or.inl ⟨hnp, other, rfl, rfl⟩
        | none =>
          right
          cases he : g.enemys.find? (g.hitsEnemy b) with
          | some e => exact Or.inl ⟨hnp, rfl, e, rfl, rfl⟩
          | none => exact Or.inr ⟨hnp, rfl, rfl, rfl⟩
    | none =>
      right
      have hnp : g.noPlayerHit b := ⟨h0', fun q' hq'' => by
        rw [hp1] at hq''
        cases hq''⟩
      simp only [Option.filter]
      cases ho : g.others.find? (g.hitsOther b) with
      | some other => exact Or.inl ⟨hnp, other, rfl, rfl⟩
      | none =>
        right
        cases he : g.enemys.find? (g.hitsEnemy b) with
        | some e => exact Or.inl ⟨hnp, rfl, e, rfl, rfl⟩
        | none => exact Or.inr ⟨hnp, rfl, rfl, rfl⟩

theorem Game.hitsPlayer_live {g : Game} {b p : Ptr} (h : g.hitsPlayer b p = true) :
    (g.tank p).Failed = false := by
  unfold Game.hitsPlayer at h
  cases hf : (g.tank p).Failed
  · rfl
  · simp [hf] at h

theorem effects_player (g : Game) (p : Ptr) (bs : List Ptr) (hp : p < g.tanks.length)
    (hlive : (g.tank p).Failed = false) :
    effects g { g.setTank p { g.tank p with Failed := true } with bullets := bs } = 1 := by
  have h := newlyFailed_set g.tanks p { g.tank p with Failed := true } hp hlive rfl
  simp only [effects, Game.setTank, h]
  omega

theorem effects_other (g : Game) (other : Other) (bs : List Ptr) (hmem : other ∈ g.others) :
    effects g { g with others := g.others.erase other, bullets := bs } = 1 := by
  have hpos : 0 < g.others.length := List.length_pos_of_mem hmem
  simp only [effects, newlyFailed_self, List.length_erase_of_mem hmem]
  omega

theorem effects_enemy (g : Game) (e : Ptr) (bs : List Ptr) (hmem : e ∈ g.enemys) :
    effects g { g with enemys := g.enemys.erase e, bullets := bs } = 1 := by
  have hpos : 0 < g.enemys.length := List.length_pos_of_mem hmem
  simp only [effects, newlyFailed_self, List.length_erase_of_mem hmem]
  omega

theorem effects_self (g : Game) : effects g g = 0 := by
  simp [effects, newlyFailed_self]

/-- C7: `HitAndRemove` fires at most one effect, on the first target in the
order players, obstacles, enemies.  The call does exactly one of five things: it
marks the first player `Failed`; failing that, the second player; failing that, it
removes the first obstacle in iteration order the bullet strictly overlaps; failing
that, the first such enemy the bullet does not belong to; failing that, nothing.
In the first four cases nothing else changes but the bullet set, which loses the
bullet; the count of tanks newly marked `Failed` plus obstacles removed plus
enemies removed is then one, and zero in the last case, where the session is
unchanged. -/
theorem HitAndRemove_one_effect (g : Game) (b : Ptr) (hp0 : g.p0 < g.tanks.length)
    (hp1 : ∀ q, g.p1 = some q → q < g.tanks.length) :
    effects g (g.HitAndRemove b) ≤ 1
      ∧ ((g.hitsPlayer b g.p0 = true ∧ g.HitAndRemove b =
            { g.setTank g.p0 { g.tank g.p0 with Failed := true } with
              bullets := g.bullets.erase b })
        ∨ (g.hitsPlayer b g.p0 = false ∧ ∃ q, g.p1 = some q ∧ g.hitsPlayer b q = true
            ∧ g.HitAndRemove b =
              { g.setTank q { g.tank q with Failed := true } with
                bullets := g.bullets.erase b })
        ∨ (g.noPlayerHit b ∧ ∃ other, g.others.find? (g.hitsOther b) = some other
            ∧ g.HitAndRemove b =
              { g with others := g.others.erase other, bullets := g.bullets.erase b })
        ∨ (g.noPlayerHit b ∧ g.others.find? (g.hitsOther b) = none
            ∧ ∃ e, g.enemys.find? (g.hitsEnemy b) = some e
            ∧ g.HitAndRemove b =
              { g with enemys := g.enemys.erase e, bullets := g.bullets.erase b })
        ∨ (g.noPlayerHit b ∧ g.others.find? (g.hitsOther b) = none
            ∧ g.enemys.find? (g.hitsEnemy b) = none ∧ g.HitAndRemove b = g))
      ∧ (effects g (g.HitAndRemove b) = 1 → (g.HitAndRemove b).bullets = g.bullets.erase b)
      ∧ (effects g (g.HitAndRemove b) = 0 → g.HitAndRemove b = g) := by
  have hcases := Game.HitAndRemove_eq g b
  refine ⟨?_, hcases, ?_⟩
  · rcases hcases with ⟨h0, heq⟩ | ⟨_, q, hq, hhit, heq⟩ | ⟨_, other, ho, heq⟩
        | ⟨_, _, e, he, heq⟩ | ⟨_, _, _, heq⟩
    · rw [heq, effects_player g g.p0 _ hp0 (Game.hitsPlayer_live h0)]
    · rw [heq, effects_player g q _ (hp1 q hq) (Game.hitsPlayer_live hhit)]
    · rw [heq, effects_other g other _ (List.mem_of_find?_eq_some ho)]
    · rw [heq, effects_enemy g e _ (List.mem_of_find?_eq_some he)]
    · rw [heq, effects_self]
      omega
  · rcases hcases with ⟨h0, heq⟩ | ⟨_, q, hq, hhit, heq⟩ | ⟨_, other, ho, heq⟩
        | ⟨_, _, e, he, heq⟩ | ⟨_, _, _, heq⟩
    · rw [heq, effects_player g g.p0 _ hp0 (Game.hitsPlayer_live h0)]
      exact ⟨fun _ => rfl, fun h => absurd h (by decide)⟩
    · rw [heq, effects_player g q _ (hp1 q hq) (Game.hitsPlayer_live hhit)]
      exact ⟨fun _ => rfl, fun h => absurd h (by decide)⟩
    · rw [heq, effects_other g other _ (List.mem_of_find?_eq_some ho)]
      exact ⟨fun _ => rfl, fun h => absurd h (by decide)⟩
    · rw [heq, effects_enemy g e _ (List.mem_of_find?_eq_some he)]
      exact ⟨fun _ => rfl, fun h => absurd h (by decide)⟩
    · rw [heq, effects_self]
      exact ⟨fun h => absurd h (by decide), fun _ => rfl⟩

/-- In `crossfire` the bullet strictly overlaps the player and an obstacle: the
player alone is marked `Failed`, the obstacle and the enemy stay. -/
theorem HitAndRemove_one_effect_witness :
    crossfire.p0 < crossfire.tanks.length
      ∧ (∀ q, crossfire.p1 = some q → q < crossfire.tanks.length)
      ∧ crossfire.hitsPlayer 0 crossfire.p0 = true
      ∧ crossfire.hitsOther 0 (NewOther 144 384 0) = true
      ∧ effects crossfire (crossfire.HitAndRemove 0) ≤ 1
      ∧ (crossfire.HitAndRemove 0).others = crossfire.others
      ∧ (crossfire.HitAndRemove 0).enemys = crossfire.enemys
      ∧ ((crossfire.HitAndRemove 0).tank 0).Failed = true
      ∧ (crossfire.HitAndRemove 0).bullets = [] :=
  ⟨by decide!, (fun _ h => nomatch h), by decide!, by decide!,
    (HitAndRemove_one_effect crossfire 0 (by decide!) (fun _ h => nomatch h)).1,
    by decide!, by decide!, by decide!, by decide!⟩

/-- C8, as stated, fails for a composition that does not sum to 20: for
`{2, 0, 0, 0}` the queue is `[0, 0]`, two calls release two enemies and leave the
cursor at `N = 2`, and every further call reads the queue at the index `2` and
panics, since the guard of `Generate_enemy` is `idx < 20`. -/
theorem spawn_short_queue_panics :
    expandFrom 0 [2, 0, 0, 0] = [0, 0]
      ∧ ((twoQueued.Generate_enemy 0 0).bind (fun s => s.Generate_enemy 2 0)).map
          (fun s => (s.idx, s.enemys.length)) = some (2, 2)
      ∧ ∀ r3 r4, ((twoQueued.Generate_enemy 0 0).bind (fun s => s.Generate_enemy 2 0)).bind
          (fun s => s.Generate_enemy r3 r4) = none := by
  decide!

/-- A call of `Generate_enemy` with the cursor inside a queue of twenty, no
position conflict and a free slot releases the queued unit. -/
theorem Game.Generate_enemy_release (g : Game) (r3 : Fin 3) (r4 : Fin 4)
    (hq : g.enemies_left.length = 20) (h0 : 0 ≤ g.idx) (h20 : g.idx < 20)
    (hsafe : ∀ ty, g.PosConflict (NewEnemy ty (r4.val : Int)
      ((born_positions r3).1 : ℚ) ((born_positions r3).2 : ℚ)) = false)
    (hcap : g.enemys.length < max_enemies) :
    ∃ ty, g.enemies_left[g.idx.toNat]? = some ty ∧ g.Generate_enemy r3 r4 = some
      { g with
        tanks := g.tanks ++ [NewEnemy ty (r4.val : Int)
          ((born_positions r3).1 : ℚ) ((born_positions r3).2 : ℚ)],
        enemys := g.enemys ++ [g.tanks.length],
        idx := g.idx + 1 } := by
  have hlt : g.idx.toNat < g.enemies_left.length := by omega
  refine ⟨g.enemies_left[g.idx.toNat], List.getElem?_eq_getElem hlt, ?_⟩
  unfold Game.Generate_enemy
  rw [if_pos h20]
  simp only [if_neg (not_lt.mpr h0), List.getElem?_eq_getElem hlt, hsafe]
  rw [if_neg (by
    simp only [Bool.false_eq_true, false_or]
    omega)]
  rfl

/-- A call of `Generate_enemy` with the cursor at 20 changes nothing. -/
theorem Game.Generate_enemy_done (g : Game) (r3 : Fin 3) (r4 : Fin 4) (h20 : ¬ g.idx < 20) :
    g.Generate_enemy r3 r4 = some g := by
  unfold Game.Generate_enemy
  rw [if_neg h20]

/-- C8, amended: for a queue of twenty enemies, as built from every row of the
built-in table, starting from the cursor 0, with the safety check always passing
and a free slot at every call, the first `k` calls of `Generate_enemy` never
panic, release exactly `min k 20` enemies and leave the cursor at `min k 20`:
twenty enemies are released, and from then on no call releases a unit or moves the
cursor. -/
theorem spawn_queue_exhaustion (g : Game) (env : Nat → Game → Game) (r3 : Nat → Fin 3)
    (r4 : Nat → Fin 4) (hq : g.enemies_left.length = 20) (hidx : g.idx = 0)
    (henv : ∀ i s, (env i s).idx = s.idx ∧ (env i s).enemies_left = s.enemies_left)
    (hsafe : ∀ i s ty, (env i s).PosConflict (NewEnemy ty ((r4 i).val : Int)
      ((born_positions (r3 i)).1 : ℚ) ((born_positions (r3 i)).2 : ℚ)) = false)
    (hcap : ∀ i s, (env i s).enemys.length < max_enemies) (k : Nat) :
    ∃ s, spawnRun env r3 r4 k g = some (s, min k 20)
      ∧ s.idx = ((min k 20 : Nat) : Int) ∧ s.enemies_left = g.enemies_left := by
  induction k with
  | zero => exact ⟨g, rfl, by simp [hidx], rfl⟩
  | succ k ih =>
    obtain ⟨s, hrun, hsidx, hsq⟩ := ih
    have hei := (henv k s).1
    have heq := (henv k s).2
    rcases Nat.lt_or_ge k 20 with hk | hk
    · have hmin : min k 20 = k := Nat.min_eq_left (Nat.le_of_lt hk)
      have hmin1 : min (k + 1) 20 = k + 1 := Nat.min_eq_left hk
      rw [hmin] at hsidx hrun
      obtain ⟨ty, _, hgen⟩ := Game.Generate_enemy_release (env k s) (r3 k) (r4 k)
        (by rw [heq, hsq, hq]) (by rw [hei, hsidx]; omega) (by rw [hei, hsidx]; omega)
        (hsafe k s) (hcap k s)
      have hex : ∃ s', (env k s).Generate_enemy (r3 k) (r4 k) = some s'
          ∧ s'.idx = (env k s).idx + 1
          ∧ s'.enemys.length = (env k s).enemys.length + 1
          ∧ s'.enemies_left = (env k s).enemies_left :=
        ⟨_, hgen, rfl, by simp, rfl⟩
      obtain ⟨s', hs', hi', hl', hq'⟩ := hex
      refine ⟨s', ?_, ?_, ?_⟩
      · simp only [spawnRun, hrun, hs', hmin1, hl']
        simp
      · rw [hmin1, hi', hei, hsidx]
        push_cast
        rfl
      · rw [hq', heq, hsq]
    · have hmin : min k 20 = 20 := Nat.min_eq_right hk
      have hmin1 : min (k + 1) 20 = 20 := Nat.min_eq_right (by omega)
      rw [hmin] at hsidx hrun
      have hgen := Game.Generate_enemy_done (env k s) (r3 k) (r4 k)
        (by rw [hei, hsidx]; omega)
      refine ⟨env k s, ?_, ?_, ?_⟩
      · simp only [spawnRun, hrun, hgen, hmin1]
        simp
      · rw [hmin1, hei, hsidx]
      · rw [heq, hsq]

/-- The sprite of a new enemy is at most 13 wide and 15 high. -/
theorem NewEnemy_dims (ty f : Int) (x y : ℚ) :
    (0 ≤ (NewEnemy ty f x y).Image.Dx ∧ (NewEnemy ty f x y).Image.Dx ≤ 13)
      ∧ (0 ≤ (NewEnemy ty f x y).Image.Dy ∧ (NewEnemy ty f x y).Image.Dy ≤ 15) := by
  simp only [NewEnemy, EbitenImage.Dx, EbitenImage.Dy, nilImage]
  split_ifs <;> decide

/-- A candidate at a spawn point is not too close to a player at its start position. -/
theorem NotSafe_home (ty : Int) (f : Int) (r3 : Fin 3) :
    NotSafe (NewPlayer 0) (NewEnemy ty f
      ((born_positions r3).1 : ℚ) ((born_positions r3).2 : ℚ)) = false := by
  have hy : (born_positions r3).2 = 3 := by fin_cases r3 <;> rfl
  have hdims := NewEnemy_dims ty f ((born_positions r3).1 : ℚ) ((born_positions r3).2 : ℚ)
  have h3 := hdims.2.1
  have h4 := hdims.2.2
  clear hdims
  have hY : (NewEnemy ty f ((born_positions r3).1 : ℚ) ((born_positions r3).2 : ℚ)).Y = 3 := by
    simp [NewEnemy, hy]
  generalize NewEnemy ty f ((born_positions r3).1 : ℚ) ((born_positions r3).2 : ℚ) = e
    at h3 h4 hY
  have h3q : (0 : ℚ) ≤ (e.Image.Dy : ℚ) := by exact_mod_cast h3
  have h4q : (e.Image.Dy : ℚ) ≤ 15 := by exact_mod_cast h4
  simp only [NotSafe, Tank.GetInfo, hY]
  rw [if_neg]
  have hp : (NewPlayer 0).Image.Dx = 13 ∧ (NewPlayer 0).Image.Dy = 13
      ∧ (NewPlayer 0).Y = 384 := by decide!
  obtain ⟨hp1, hp2, hp3⟩ := hp
  rw [hp1, hp2, hp3]
  push_cast
  nlinarith [sq_nonneg ((NewPlayer 0).X + 13 * 2 / 2 - (e.X + (e.Image.Dx : ℚ) * 2 / 2))]

/-- The safety check passes on the cleared field for every candidate at a spawn
point. -/
theorem clearField_safe (i : Nat) (s : Game) (ty : Int) (r3 : Fin 3) (r4 : Fin 4) :
    (clearField i s).PosConflict (NewEnemy ty (r4.val : Int)
      ((born_positions r3).1 : ℚ) ((born_positions r3).2 : ℚ)) = false := by
  have h := NotSafe_home ty (r4.val : Int) r3
  have ht : (clearField i s).tank (clearField i s).p0 = NewPlayer 0 := rfl
  have hp : (clearField i s).p1 = none := rfl
  have he : (clearField i s).enemys = [] := rfl
  simp only [Game.PosConflict, ht, h, hp, he]
  rfl

/-- Twenty-five ticks from the start of a level of twenty enemies, the field
cleared between the calls: twenty enemies are released and the cursor is 20. -/
theorem spawn_queue_exhaustion_witness :
    levelStart.enemies_left.length = 20 ∧ levelStart.idx = 0
      ∧ ∃ s, spawnRun clearField (fun _ => 0) (fun _ => 0) 25 levelStart = some (s, 20)
        ∧ s.idx = 20 ∧ s.enemies_left = levelStart.enemies_left :=
  ⟨by decide!, by decide!,
    spawn_queue_exhaustion levelStart clearField (fun _ => 0) (fun _ => 0) (by decide!)
      (by decide!) (fun _ _ => ⟨rfl, rfl⟩) (fun i s ty => clearField_safe i s ty 0 0)
      (fun _ _ => Nat.succ_pos 3) 25⟩

/-! ## The tick keeps units of the same kind apart -/

theorem Game.tank_setTank (g : Game) (p : Ptr) (t : Tank) (i : Ptr) :
    (g.setTank p t).tank i = if i = p ∧ p < g.tanks.length then t else g.tank i := by
  by_cases h : i = p
  · subst h
    by_cases hl : i < g.tanks.length
    · simp [Game.setTank_tank_of_lt g i t hl, hl]
    · rw [Game.setTank_of_le g i t (Nat.le_of_not_lt hl)]
      simp [hl]
  · simp only [h, false_and, if_false]
    simp only [Game.tank, Game.setTank, List.getD_eq_getElem?_getD]
    rw [List.getElem?_set_ne (fun hh => h hh.symm)]

theorem Game.tank_setTank_ne (g : Game) (p : Ptr) (t : Tank) (i : Ptr) (h : i ≠ p) :
    (g.setTank p t).tank i = g.tank i := by
  rw [Game.tank_setTank]
  simp [h]

theorem CheckCollision_congr (a b a' b' : Tank) (ha : a'.Image = a.Image) (hax : a'.X = a.X)
    (hay : a'.Y = a.Y) (hb : b'.Image = b.Image) (hbx : b'.X = b.X) (hby : b'.Y = b.Y) :
    CheckCollision a' b' true = CheckCollision a b true := by
  simp only [CheckCollision_tank, ha, hax, hay, hb, hbx, hby]

theorem Game.Frame.refl (g : Game) : g.Frame g :=
  ⟨rfl, fun _ => rfl, fun _ => rfl, fun _ => rfl, fun _ h => h, rfl, rfl, fun _ h => h, rfl, rfl⟩

theorem Game.Frame.trans {g g' g'' : Game} (h : g.Frame g') (h' : g'.Frame g'') :
    g.Frame g'' :=
  ⟨h'.tanks_len.trans h.tanks_len, fun i => (h'.image i).trans (h.image i),
    fun i => (h'.posX i).trans (h.posX i), fun i => (h'.posY i).trans (h.posY i),
    fun i hf => h'.failed i (h.failed i hf), h'.p0.trans h.p0, h'.p1.trans h.p1,
    fun e he => h.enemys e (h'.enemys e he), h'.queue.trans h.queue, h'.idx.trans h.idx⟩

/-- A step that moves no tank, revives none and adds no enemy keeps the session
legal. -/
theorem Game.Legal.of_frame {g g' : Game} (hl : g.Legal) (h : g.Frame g') : g'.Legal := by
  obtain ⟨wf, he, hp⟩ := hl
  refine ⟨⟨?_, ?_, ?_, ?_, ?_, ?_, ?_, ?_, ?_⟩, ?_, ?_⟩
  · rw [h.p0, h.tanks_len]
    exact wf.p0_lt
  · intro q hq
    rw [h.p1] at hq
    rw [h.p0, h.tanks_len]
    exact wf.p1_lt q hq
  · intro e hmem
    rw [h.p0, h.p1, h.tanks_len]
    exact wf.enemy_lt e (h.enemys e hmem)
  · intro e hmem
    rw [h.image e]
    exact wf.enemy_size e (h.enemys e hmem)
  · rw [h.p0, h.image]
    exact wf.p0_size
  · intro q hq
    rw [h.p1] at hq
    rw [h.image]
    exact wf.p1_size q hq
  · rw [h.queue]
    exact wf.queue_len
  · rw [h.idx]
    exact wf.idx_nonneg
  · rw [h.queue]
    exact wf.queue_tags
  · intro a ha b hb hab
    rw [CheckCollision_congr (g.tank a) (g.tank b) _ _ (h.image a) (h.posX a) (h.posY a)
      (h.image b) (h.posX b) (h.posY b)]
    exact he a (h.enemys a ha) b (h.enemys b hb) hab
  · intro q hq h0 h1
    rw [h.p1] at hq
    rw [h.p0] at h0 ⊢
    have h0' : (g.tank g.p0).Failed = false := by
      cases hf : (g.tank g.p0).Failed
      · rfl
      · rw [h.failed _ hf] at h0
        exact Bool.noConfusion h0
    have h1' : (g.tank q).Failed = false := by
      cases hf : (g.tank q).Failed
      · rfl
      · rw [h.failed _ hf] at h1
        exact Bool.noConfusion h1
    rw [CheckCollision_congr (g.tank g.p0) (g.tank q) _ _ (h.image _) (h.posX _) (h.posY _)
      (h.image q) (h.posX q) (h.posY q),
      CheckCollision_congr (g.tank q) (g.tank g.p0) _ _ (h.image q) (h.posX q) (h.posY q)
      (h.image _) (h.posX _) (h.posY _)]
    exact hp q hq h0' h1'

theorem Game.Frame.of_eq {g g' : Game} (ht : g'.tanks = g.tanks) (hp0 : g'.p0 = g.p0)
    (hp1 : g'.p1 = g.p1) (he : ∀ e ∈ g'.enemys, e ∈ g.enemys)
    (hq : g'.enemies_left = g.enemies_left) (hi : g'.idx = g.idx) : g.Frame g' := by
  have htank : ∀ i, g'.tank i = g.tank i := fun i => by simp only [Game.tank, ht]
  exact ⟨by rw [ht], fun i => by rw [htank], fun i => by rw [htank], fun i => by rw [htank],
    fun i h => by rw [htank]; exact h, hp0, hp1, he, hq, hi⟩

theorem Game.Frame.of_store (g : Game) (p : Ptr) (t : Tank) (hi : t.Image = (g.tank p).Image)
    (hx : t.X = (g.tank p).X) (hy : t.Y = (g.tank p).Y)
    (hf : (g.tank p).Failed = true → t.Failed = true) : g.Frame (g.setTank p t) := by
  have key : ∀ i, (g.setTank p t).tank i = t ∧ i = p ∨ (g.setTank p t).tank i = g.tank i := by
    intro i
    rw [Game.tank_setTank]
    by_cases h : i = p ∧ p < g.tanks.length
    · exact Or.inl ⟨by rw [if_pos h], h.1⟩
    · exact Or.inr (by rw [if_neg h])
  refine ⟨by simp [Game.setTank], ?_, ?_, ?_, ?_, rfl, rfl, fun _ h => h, rfl, rfl⟩
  · intro i
    rcases key i with ⟨h, rfl⟩ | h
    · rw [h, hi]
    · rw [h]
  · intro i
    rcases key i with ⟨h, rfl⟩ | h
    · rw [h, hx]
    · rw [h]
  · intro i
    rcases key i with ⟨h, rfl⟩ | h
    · rw [h, hy]
    · rw [h]
  · intro i hfi
    rcases key i with ⟨h, rfl⟩ | h
    · rw [h]
      exact hf hfi
    · rw [h]
      exact hfi

theorem Game.Frame.of_setFailed (g : Game) (p : Ptr) (bs : List Ptr) :
    g.Frame { g.setTank p { g.tank p with Failed := true } with bullets := bs } :=
  (Game.Frame.of_store g p { g.tank p with Failed := true } rfl rfl rfl (fun _ => rfl)).trans
    (Game.Frame.of_eq rfl rfl rfl (fun _ h => h) rfl rfl)

theorem Game.Frame.of_setFace (g : Game) (p : Ptr) (d : Int) :
    g.Frame (g.setTank p { g.tank p with Face := d }) :=
  Game.Frame.of_store g p { g.tank p with Face := d } rfl rfl rfl (fun h => h)

theorem Game.Frame.of_HitAndRemove (g : Game) (b : Ptr) : g.Frame (g.HitAndRemove b) := by
  rcases Game.HitAndRemove_eq g b with ⟨_, heq⟩ | ⟨_, q, _, _, heq⟩ | ⟨_, other, _, heq⟩
      | ⟨_, _, e, _, heq⟩ | ⟨_, _, _, heq⟩
  · rw [heq]
    exact Game.Frame.of_setFailed g g.p0 _
  · rw [heq]
    exact Game.Frame.of_setFailed g q _
  · rw [heq]
    exact Game.Frame.of_eq rfl rfl rfl (fun _ h => h) rfl rfl
  · rw [heq]
    exact Game.Frame.of_eq rfl rfl rfl (fun _ h => List.mem_of_mem_erase h) rfl rfl
  · rw [heq]
    exact Game.Frame.refl g

theorem Game.Frame.of_bulletStep (g : Game) (b : Ptr) : g.Frame (g.bulletStep b) := by
  unfold Game.bulletStep
  split_ifs
  · exact Game.Frame.of_eq rfl rfl rfl (fun _ h => h) rfl rfl
  · have h1 : g.Frame (g.setBullet b (g.bullet b).Move) :=
      Game.Frame.of_eq rfl rfl rfl (fun _ h => h) rfl rfl
    exact h1.trans (Game.Frame.of_HitAndRemove _ b)

theorem Game.Frame.of_bulletLoop (l : List Ptr) (g : Game) :
    g.Frame (l.foldl (fun s bullet => s.bulletStep bullet) g) := by
  induction l generalizing g with
  | nil => exact Game.Frame.refl g
  | cons b l ih => exact (Game.Frame.of_bulletStep g b).trans (ih (g.bulletStep b))

theorem Game.Frame.of_fire (g : Game) (p : Ptr) :
    g.Frame (({ g with shots := g.shots ++ [(g.tank p).Fire p] } : Game).addBullet
      g.shots.length) :=
  Game.Frame.of_eq rfl rfl rfl (fun _ h => h) rfl rfl

theorem Game.displace_eq (g : Game) (t : Ptr) :
    ∃ t', g.displace t = g.setTank t t' ∧ t'.Image = (g.tank t).Image
      ∧ t'.Failed = (g.tank t).Failed := by
  unfold Game.displace
  split_ifs
  · exact ⟨_, rfl, rfl, rfl⟩
  · exact ⟨_, rfl, rfl, rfl⟩
  · exact ⟨_, rfl, rfl, rfl⟩
  · exact ⟨_, rfl, rfl, rfl⟩

theorem Game.WF.store_same_image {g : Game} (hwf : g.WF) (p : Ptr) (t : Tank)
    (hi : t.Image = (g.tank p).Image) : (g.setTank p t).WF := by
  have himg : ∀ i, ((g.setTank p t).tank i).Image = (g.tank i).Image := by
    intro i
    rw [Game.tank_setTank]
    split_ifs with h
    · rw [hi, h.1]
    · rfl
  have hlen : (g.setTank p t).tanks.length = g.tanks.length := by simp [Game.setTank]
  refine ⟨?_, ?_, ?_, ?_, ?_, ?_, hwf.queue_len, hwf.idx_nonneg, hwf.queue_tags⟩
  · rw [hlen]
    exact hwf.p0_lt
  · intro q hq
    rw [hlen]
    exact hwf.p1_lt q hq
  · intro e hmem
    rw [hlen]
    exact hwf.enemy_lt e hmem
  · intro e hmem
    rw [himg]
    exact hwf.enemy_size e hmem
  · rw [himg]
    exact hwf.p0_size
  · intro q hq
    rw [himg]
    exact hwf.p1_size q hq

theorem Game.isUnit_lt {g : Game} (hwf : g.WF) {t : Ptr} (ht : g.isUnit t) :
    t < g.tanks.length := by
  rcases ht with h | h | h
  · exact (hwf.enemy_lt t h).1
  · rw [h]
    exact hwf.p0_lt
  · exact (hwf.p1_lt t h).1

/-- A committed step of a unit keeps the session legal. -/
theorem Game.Legal.after_displace {g : Game} (hl : g.Legal) (t : Ptr) (ht : g.isUnit t)
    (hv : g.vetoed t = false) : (g.displace t).Legal := by
  obtain ⟨wf, he, hp⟩ := hl
  have htl := Game.isUnit_lt wf ht
  obtain ⟨t', hd, himg, hfl⟩ := Game.displace_eq g t
  unfold Game.vetoed at hv
  rw [hd] at hv ⊢
  simp only [Bool.or_eq_false_iff] at hv
  obtain ⟨⟨⟨⟨c1, c2⟩, c3⟩, _⟩, _⟩ := hv
  have hself : (g.setTank t t').tank t = t' := Game.setTank_tank_of_lt g t t' htl
  have hne : ∀ i, i ≠ t → (g.setTank t t').tank i = g.tank i :=
    fun i h => Game.tank_setTank_ne g t t' i h
  have wf' : (g.setTank t t').WF := Game.WF.store_same_image wf t t' himg
  have c3' : ∀ a ∈ g.enemys, a ≠ t →
      CheckCollision ((g.setTank t t').tank a) ((g.setTank t t').tank t) true = false := by
    intro a ha hat
    have := List.any_eq_false.mp c3 a ha
    simpa [hat] using this
  refine ⟨wf', ?_, ?_⟩
  · intro a ha b hb hab
    by_cases hbt : b = t
    · subst hbt
      exact c3' a ha hab
    · by_cases hat : a = t
      · subst hat
        have hsa := wf'.enemy_size a ha
        have hsb := wf'.enemy_size b hb
        rw [CheckCollision_symm _ _ (by rw [hsa.1, hsb.1]) (by rw [hsa.2, hsb.2])
          (by rw [hsa.1]; decide) (by rw [hsa.2]; decide)]
        exact c3' b hb hbt
      · rw [hne a hat, hne b hbt]
        exact he a ha b hb hab
  · intro q hq h0 h1
    have hq' : g.p1 = some q := hq
    have hp0' : (g.setTank t t').p0 = g.p0 := rfl
    rw [hp0'] at h0 ⊢
    have hs0 := wf'.p0_size
    have hs1 := wf'.p1_size q hq
    rw [hp0'] at hs0
    have hsymm := CheckCollision_symm ((g.setTank t t').tank g.p0) ((g.setTank t t').tank q)
      (by rw [hs0.1, hs1.1]) (by rw [hs0.2, hs1.2]) (by rw [hs0.1]; decide)
      (by rw [hs0.2]; decide)
    have hq0 : q ≠ g.p0 := (wf.p1_lt q hq').2
    by_cases ht0 : t = g.p0
    · have hc : CheckCollision ((g.setTank t t').tank q) ((g.setTank t t').tank t) true
          = false := by
        have hp1' : (g.setTank t t').p1 = some q := hq
        rw [hp1'] at c2
        have htq : t ≠ q := fun h => hq0 (h.symm.trans ht0)
        simpa [htq, h1] using c2
      have e : (g.setTank t t').tank t = (g.setTank t t').tank g.p0 :=
        congrArg (g.setTank t t').tank ht0
      rw [e] at hc
      exact ⟨by rw [hsymm]; exact hc, hc⟩
    · by_cases htq : t = q
      · have hc : CheckCollision ((g.setTank t t').tank g.p0) ((g.setTank t t').tank t) true
            = false := by
          rw [hp0'] at c1
          simpa [ht0, h0] using c1
        have e : (g.setTank t t').tank t = (g.setTank t t').tank q :=
          congrArg (g.setTank t t').tank htq
        rw [e] at hc
        exact ⟨hc, by rw [← hsymm]; exact hc⟩
      · have e0 := hne g.p0 (fun h => ht0 h.symm)
        have e1 := hne q (fun h => htq h.symm)
        rw [e0] at h0
        rw [e1] at h1
        rw [e0, e1]
        exact hp q hq' h0 h1

/-- The session after `Move` on a unit is legal, and `Move` changes nothing but
the store of tanks, whose length it keeps. -/
theorem Game.Legal.after_Move {g : Game} (hl : g.Legal) (t : Ptr) (ht : g.isUnit t) :
    (g.Move t).2.Legal ∧ (g.Move t).2.enemys = g.enemys ∧ (g.Move t).2.p0 = g.p0
      ∧ (g.Move t).2.p1 = g.p1 := by
  rw [Game.Move_eq]
  split_ifs with hf hv
  · exact ⟨hl, rfl, rfl, rfl⟩
  · exact ⟨hl, rfl, rfl, rfl⟩
  · have hv' : g.vetoed t = false := by simpa using hv
    obtain ⟨t', hd, _, _⟩ := Game.displace_eq g t
    refine ⟨Game.Legal.after_displace hl t ht hv', ?_, ?_, ?_⟩ <;> rw [hd] <;> rfl

theorem Game.Legal.after_enemyStep {g : Game} (hl : g.Legal) (e : Ptr) (he : e ∈ g.enemys)
    (r : Fin 2) :
    (g.enemyStep e r).Legal ∧ (g.enemyStep e r).enemys = g.enemys
      ∧ (g.enemyStep e r).p0 = g.p0 ∧ (g.enemyStep e r).p1 = g.p1 := by
  unfold Game.enemyStep
  simp only
  split_ifs
  · exact ⟨hl.of_frame (Game.Frame.of_setFace g e _), rfl, rfl, rfl⟩
  · exact Game.Legal.after_Move hl e (Or.inl he)
  · exact ⟨hl.of_frame (Game.Frame.of_setFace g e _), rfl, rfl, rfl⟩

theorem Game.Legal.after_enemyLoop (l : List Ptr) (coin : Ptr → Fin 2) (g : Game) (hl : g.Legal)
    (hmem : ∀ e ∈ l, e ∈ g.enemys) :
    (l.foldl (fun s e => s.enemyStep e (coin e)) g).Legal
      ∧ (l.foldl (fun s e => s.enemyStep e (coin e)) g).p0 = g.p0
      ∧ (l.foldl (fun s e => s.enemyStep e (coin e)) g).p1 = g.p1 := by
  induction l generalizing g with
  | nil => exact ⟨hl, rfl, rfl⟩
  | cons e l ih =>
    obtain ⟨h1, h2, h3, h4⟩ := Game.Legal.after_enemyStep hl e (hmem e (List.mem_cons_self e l))
      (coin e)
    have hmem' : ∀ x ∈ l, x ∈ (g.enemyStep e (coin e)).enemys := by
      intro x hx
      rw [h2]
      exact hmem x (List.mem_cons_of_mem e hx)
    obtain ⟨i1, i2, i3⟩ := ih (g.enemyStep e (coin e)) h1 hmem'
    exact ⟨i1, i2.trans h3, i3.trans h4⟩

theorem NewEnemy_size (ty f : Int) (x y : ℚ) (h0 : 0 ≤ ty) (h7 : ty ≤ 7) :
    (NewEnemy ty f x y).Image.Dx = 13 ∧ (NewEnemy ty f x y).Image.Dy = 15 := by
  simp only [NewEnemy, EbitenImage.Dx, EbitenImage.Dy]
  interval_cases ty <;> decide

theorem Game.tank_spawned_lt (g : Game) (e : Tank) (i : Ptr) (h : i < g.tanks.length) :
    (g.spawned e).tank i = g.tank i := by
  simp [Game.spawned, Game.tank, List.getD_eq_getElem?_getD, List.getElem?_append_left h]

theorem Game.tank_spawned_new (g : Game) (e : Tank) :
    (g.spawned e).tank g.tanks.length = e := by
  simp [Game.spawned, Game.tank, List.getD_eq_getElem?_getD]

theorem Game.PosConflict_false {g : Game} {e : Tank} (h : g.PosConflict e = false) :
    ∀ a ∈ g.enemys, NotSafe (g.tank a) e = false := by
  intro a ha
  unfold Game.PosConflict at h
  split_ifs at h with h1 h2 h3
  have h3' : g.enemys.any (fun e' => NotSafe (g.tank e') e) = false := by simpa using h3
  exact List.any_eq_false.mp h3' a ha |> fun hh => by simpa using hh

/-- Releasing a candidate of the enemy size that is not too close to any enemy of
the live set keeps the session legal. -/
theorem Game.Legal.after_spawned {g : Game} (hl : g.Legal) (e : Tank)
    (hsize : e.Image.Dx = 13 ∧ e.Image.Dy = 15)
    (hsafe : ∀ a ∈ g.enemys, NotSafe (g.tank a) e = false) : (g.spawned e).Legal := by
  obtain ⟨wf, he, hp⟩ := hl
  have told : ∀ i, i < g.tanks.length → (g.spawned e).tank i = g.tank i :=
    fun i h => Game.tank_spawned_lt g e i h
  have tnew : (g.spawned e).tank g.tanks.length = e := Game.tank_spawned_new g e
  have hlen : (g.spawned e).tanks.length = g.tanks.length + 1 := by simp [Game.spawned]
  have hen : (g.spawned e).enemys = g.enemys ++ [g.tanks.length] := rfl
  have hp0 : (g.spawned e).p0 = g.p0 := rfl
  have hp1 : (g.spawned e).p1 = g.p1 := rfl
  refine ⟨⟨?_, ?_, ?_, ?_, ?_, ?_, wf.queue_len, ?_, wf.queue_tags⟩, ?_, ?_⟩
  · rw [hlen, hp0]
    exact Nat.lt_succ_of_lt wf.p0_lt
  · intro q hq
    rw [hlen, hp0]
    exact ⟨Nat.lt_succ_of_lt (wf.p1_lt q hq).1, (wf.p1_lt q hq).2⟩
  · intro a ha
    rw [hlen, hp0, hp1]
    rw [hen] at ha
    rcases List.mem_append.mp ha with h | h
    · exact ⟨Nat.lt_succ_of_lt (wf.enemy_lt a h).1, (wf.enemy_lt a h).2⟩
    · rw [List.mem_singleton] at h
      subst h
      refine ⟨Nat.lt_succ_self _, fun h => absurd wf.p0_lt (by rw [h]; exact lt_irrefl _),
        fun h => absurd (wf.p1_lt _ h).1 (lt_irrefl _)⟩
  · intro a ha
    rw [hen] at ha
    rcases List.mem_append.mp ha with h | h
    · rw [told a (wf.enemy_lt a h).1]
      exact wf.enemy_size a h
    · rw [List.mem_singleton] at h
      subst h
      rw [tnew]
      exact hsize
  · rw [hp0, told _ wf.p0_lt]
    exact wf.p0_size
  · intro q hq
    rw [told q (wf.p1_lt q hq).1]
    exact wf.p1_size q hq
  · have := wf.idx_nonneg
    show 0 ≤ g.idx + 1
    omega
  · intro a ha b hb hab
    rw [hen] at ha hb
    rcases List.mem_append.mp ha with h1 | h1 <;> rcases List.mem_append.mp hb with h2 | h2
    · rw [told a (wf.enemy_lt a h1).1, told b (wf.enemy_lt b h2).1]
      exact he a h1 b h2 hab
    · rw [List.mem_singleton] at h2
      subst h2
      rw [told a (wf.enemy_lt a h1).1, tnew]
      have hs := wf.enemy_size a h1
      exact (NotSafe_false_apart (g.tank a) e (by rw [hs.1, hsize.1])
        (by rw [hs.2, hsize.2]) (by rw [hs.1]; decide) (by rw [hs.2]; decide)
        (hsafe a h1)).1
    · rw [List.mem_singleton] at h1
      subst h1
      rw [told b (wf.enemy_lt b h2).1, tnew]
      have hs := wf.enemy_size b h2
      exact (NotSafe_false_apart (g.tank b) e (by rw [hs.1, hsize.1])
        (by rw [hs.2, hsize.2]) (by rw [hs.1]; decide) (by rw [hs.2]; decide)
        (hsafe b h2)).2
    · rw [List.mem_singleton] at h1 h2
      exact absurd (h1.trans h2.symm) hab
  · intro q hq h0 h1
    rw [hp0] at h0 ⊢
    rw [told _ wf.p0_lt] at h0 ⊢
    rw [told q (wf.p1_lt q hq).1] at h1 ⊢
    exact hp q hq h0 h1

/-- A call of `Generate_enemy` on a legal session does not panic and leaves a
legal session. -/
theorem Game.Legal.after_Generate_enemy {g : Game} (hl : g.Legal) (r3 : Fin 3) (r4 : Fin 4) :
    ∃ g', g.Generate_enemy r3 r4 = some g' ∧ g'.Legal ∧ g'.p0 = g.p0 ∧ g'.p1 = g.p1 := by
  have wf := hl.wf
  by_cases h20 : g.idx < 20
  · have hlt : g.idx.toNat < g.enemies_left.length := by
      have := wf.queue_len
      have := wf.idx_nonneg
      omega
    have hty := wf.queue_tags _ (List.getElem_mem hlt)
    generalize hg : g.enemies_left[g.idx.toNat] = ty at hty
    have hget : g.enemies_left[g.idx.toNat]? = some ty := by
      rw [List.getElem?_eq_getElem hlt, hg]
    have hstep : g.Generate_enemy r3 r4 =
        if g.PosConflict (NewEnemy ty (r4.val : Int) ((born_positions r3).1 : ℚ)
            ((born_positions r3).2 : ℚ)) = true ∨ g.enemys.length = max_enemies then some g
        else some (g.spawned (NewEnemy ty (r4.val : Int) ((born_positions r3).1 : ℚ)
            ((born_positions r3).2 : ℚ))) := by
      unfold Game.Generate_enemy
      rw [if_pos h20]
      simp only [if_neg (not_lt.mpr wf.idx_nonneg), hget]
      rfl
    rw [hstep]
    split_ifs with hc
    · exact ⟨g, rfl, hl, rfl, rfl⟩
    · have hno : g.PosConflict (NewEnemy ty (r4.val : Int) ((born_positions r3).1 : ℚ)
          ((born_positions r3).2 : ℚ)) = false := by
        cases hpc : g.PosConflict (NewEnemy ty (r4.val : Int) ((born_positions r3).1 : ℚ)
          ((born_positions r3).2 : ℚ))
        · rfl
        · exact absurd (Or.inl hpc) hc
      exact ⟨_, rfl, Game.Legal.after_spawned hl _ (NewEnemy_size ty _ _ _ hty.1 hty.2)
        (Game.PosConflict_false hno), rfl, rfl⟩
  · exact ⟨g, Game.Generate_enemy_done g r3 r4 h20, hl, rfl, rfl⟩

theorem Game.Legal.after_playerStep {g : Game} (hl : g.Legal) (p : Ptr)
    (hp : p = g.p0 ∨ g.p1 = some p) (up right down left fire : Bool) :
    (g.playerStep p up right down left fire).Legal
      ∧ (g.playerStep p up right down left fire).p0 = g.p0
      ∧ (g.playerStep p up right down left fire).p1 = g.p1 := by
  have hm := Game.Legal.after_Move hl p (Or.inr hp)
  have hmove : (g.Move p).2.Legal ∧ (g.Move p).2.p0 = g.p0 ∧ (g.Move p).2.p1 = g.p1 :=
    ⟨hm.1, hm.2.2.1, hm.2.2.2⟩
  have hface : ∀ d : Int, (g.setTank p { g.tank p with Face := d }).Legal
      ∧ (g.setTank p { g.tank p with Face := d }).p0 = g.p0
      ∧ (g.setTank p { g.tank p with Face := d }).p1 = g.p1 :=
    fun d => ⟨hl.of_frame (Game.Frame.of_setFace g p d), rfl, rfl⟩
  unfold Game.playerStep
  split_ifs
  · exact hmove
  · exact hface 0
  · exact hmove
  · exact hface 1
  · exact hmove
  · exact hface 2
  · exact hmove
  · exact hface 3
  · exact ⟨hl.of_frame (Game.Frame.of_fire g p), rfl, rfl⟩
  · exact ⟨hl, rfl, rfl⟩

/-- A tick in play on a legal session does not panic and leaves a legal session. -/
theorem Game.Legal.after_Update {g : Game} (hl : g.Legal) (hmode : g.mode = Mode.ModeGame)
    (inp : Input) : ∃ g', g.Update inp = some g' ∧ g'.Legal := by
  have h1 : (g.bullets.foldl (fun s bullet => s.bulletStep bullet) g).Legal :=
    hl.of_frame (Game.Frame.of_bulletLoop g.bullets g)
  unfold Game.Update
  rw [hmode]
  simp only
  generalize g.bullets.foldl (fun s bullet => s.bulletStep bullet) g = g1 at h1 ⊢
  have h2 := (Game.Legal.after_enemyLoop g1.enemys inp.coin g1 h1 (fun _ h => h)).1
  generalize g1.enemys.foldl (fun s e => s.enemyStep e (inp.coin e)) g1 = g2 at h2 ⊢
  obtain ⟨g3, hgen, h3, _, _⟩ := Game.Legal.after_Generate_enemy h2 inp.born inp.face
  rw [hgen]
  simp only
  have h4 : (if (g3.tank g3.p0).Failed = false then
        g3.playerStep g3.p0 inp.keyW inp.keyD inp.keyS inp.keyA inp.justF else g3).Legal := by
    split_ifs
    · exact (Game.Legal.after_playerStep h3 g3.p0 (Or.inl rfl) _ _ _ _ _).1
    · exact h3
  generalize (if (g3.tank g3.p0).Failed = false then
        g3.playerStep g3.p0 inp.keyW inp.keyD inp.keyS inp.keyA inp.justF else g3) = g4
    at h4 ⊢
  refine ⟨_, rfl, ?_⟩
  cases hp1 : g4.p1 with
  | none => exact h4
  | some p1 =>
    simp only
    split_ifs
    · exact (Game.Legal.after_playerStep h4 p1 (Or.inr hp1) _ _ _ _ _).1
    · exact h4

theorem Game.displace_tank (g : Game) (t : Ptr) (hlt : t < g.tanks.length) :
    (g.displace t).tank t =
      if (g.tank t).Face = 0 then { g.tank t with Y := (g.tank t).Y - (g.tank t).SpeedFactor }
      else if (g.tank t).Face = 1 then
        { g.tank t with X := (g.tank t).X + (g.tank t).SpeedFactor }
      else if (g.tank t).Face = 2 then
        { g.tank t with Y := (g.tank t).Y + (g.tank t).SpeedFactor }
      else { g.tank t with X := (g.tank t).X - (g.tank t).SpeedFactor } := by
  unfold Game.displace
  split_ifs <;> exact Game.setTank_tank_of_lt g t _ hlt

theorem Game.displace_tank_ne (g : Game) (t i : Ptr) (h : i ≠ t) :
    (g.displace t).tank i = g.tank i := by
  obtain ⟨t', hd, _, _⟩ := Game.displace_eq g t
  rw [hd]
  exact Game.tank_setTank_ne g t t' i h

/-- C11: when `Move` is called on a live unit and no check vetoes the step, the
call reports no veto, the unit keeps its facing and its new position is the old
one displaced on one axis by `SpeedFactor`: `Y - speed` for the facing 0,
`X + speed` for 1, `Y + speed` for 2, `X - speed` for 3, the other coordinate
unchanged; no other tank changes.  In particular a player of speed 1 facing
right that receives the move-right input ends at `X + 1` with `Y` unchanged. -/
theorem Move_commits_one_step (g : Game) (t : Ptr) (hlt : t < g.tanks.length)
    (hlive : (g.tank t).Failed = false) (hveto : g.vetoed t = false) :
    (g.Move t).1 = false
      ∧ ((g.Move t).2.tank t).Face = (g.tank t).Face
      ∧ ((g.tank t).Face = 0 → ((g.Move t).2.tank t).X = (g.tank t).X
          ∧ ((g.Move t).2.tank t).Y = (g.tank t).Y - (g.tank t).SpeedFactor)
      ∧ ((g.tank t).Face = 1 → ((g.Move t).2.tank t).X = (g.tank t).X + (g.tank t).SpeedFactor
          ∧ ((g.Move t).2.tank t).Y = (g.tank t).Y)
      ∧ ((g.tank t).Face = 2 → ((g.Move t).2.tank t).X = (g.tank t).X
          ∧ ((g.Move t).2.tank t).Y = (g.tank t).Y + (g.tank t).SpeedFactor)
      ∧ ((g.tank t).Face = 3 → ((g.Move t).2.tank t).X = (g.tank t).X - (g.tank t).SpeedFactor
          ∧ ((g.Move t).2.tank t).Y = (g.tank t).Y)
      ∧ (∀ i, i ≠ t → (g.Move t).2.tank i = g.tank i)
      ∧ ((g.tank t).Face = 1 → (g.tank t).SpeedFactor = 1 → ∀ fire,
          ((g.playerStep t false true false false fire).tank t).X = (g.tank t).X + 1
            ∧ ((g.playerStep t false true false false fire).tank t).Y = (g.tank t).Y) := by
  have hM : g.Move t = (false, g.displace t) := by
    rw [Game.Move_eq]
    simp [hlive, hveto]
  have hT := Game.displace_tank g t hlt
  rw [hM]
  refine ⟨rfl, ?_, ?_, ?_, ?_, ?_, fun i hi => Game.displace_tank_ne g t i hi, ?_⟩
  · show ((g.displace t).tank t).Face = _
    rw [hT]
    split_ifs <;> rfl
  · intro h
    show ((g.displace t).tank t).X = _ ∧ ((g.displace t).tank t).Y = _
    rw [hT, if_pos h]
    exact ⟨rfl, rfl⟩
  · intro h
    show ((g.displace t).tank t).X = _ ∧ ((g.displace t).tank t).Y = _
    rw [hT, if_neg (by rw [h]; decide), if_pos h]
    exact ⟨rfl, rfl⟩
  · intro h
    show ((g.displace t).tank t).X = _ ∧ ((g.displace t).tank t).Y = _
    rw [hT, if_neg (by rw [h]; decide), if_neg (by rw [h]; decide), if_pos h]
    exact ⟨rfl, rfl⟩
  · intro h
    show ((g.displace t).tank t).X = _ ∧ ((g.displace t).tank t).Y = _
    rw [hT, if_neg (by rw [h]; decide), if_neg (by rw [h]; decide),
      if_neg (by rw [h]; decide)]
    exact ⟨rfl, rfl⟩
  · intro h hs fire
    have hP : g.playerStep t false true false false fire = (g.Move t).2 := by
      simp [Game.playerStep, h]
    rw [hP, hM]
    show ((g.displace t).tank t).X = _ ∧ ((g.displace t).tank t).Y = _
    rw [hT, if_neg (by rw [h]; decide), if_pos h, hs]
    exact ⟨rfl, rfl⟩

/-- The player of `facingRight`, at `(144, 384)` with speed 1, moves to `(145, 384)`. -/
theorem Move_commits_one_step_witness :
    (0 < facingRight.tanks.length ∧ (facingRight.tank 0).Failed = false
        ∧ facingRight.vetoed 0 = false)
      ∧ (facingRight.Move 0).1 = false
      ∧ ((facingRight.Move 0).2.tank 0).X = 145 ∧ ((facingRight.Move 0).2.tank 0).Y = 384
      ∧ ((facingRight.tank 0).Face = 1 →
          ((facingRight.Move 0).2.tank 0).X
              = (facingRight.tank 0).X + (facingRight.tank 0).SpeedFactor
            ∧ ((facingRight.Move 0).2.tank 0).Y = (facingRight.tank 0).Y) :=
  ⟨by decide!, by decide!, by decide!, by decide!,
    (Move_commits_one_step facingRight 0 (by decide!) (by decide!) (by decide!)).2.2.2.1⟩

/-! ## One call of the spawn controller -/

/-- A call of `Generate_enemy` whose read of the queue is in bounds: the candidate
is built from the queued archetype and is released unless the safety check fails
or the cap is reached. -/
theorem Game.Generate_enemy_attempt_eq (g : Game) (r3 : Fin 3) (r4 : Fin 4) (h0 : 0 ≤ g.idx)
    (h20 : g.idx < 20) (hlt : g.idx.toNat < g.enemies_left.length) :
    g.Generate_enemy r3 r4 =
      if g.PosConflict (NewEnemy g.enemies_left[g.idx.toNat] (r4.val : Int)
          ((born_positions r3).1 : ℚ) ((born_positions r3).2 : ℚ)) = true
          ∨ g.enemys.length = max_enemies then some g
      else some (g.spawned (NewEnemy g.enemies_left[g.idx.toNat] (r4.val : Int)
          ((born_positions r3).1 : ℚ) ((born_positions r3).2 : ℚ))) := by
  unfold Game.Generate_enemy
  rw [if_pos h20]
  simp only [if_neg (not_lt.mpr h0), List.getElem?_eq_getElem hlt]
  rfl

/-- C12: the cap on the live enemies is kept by the spawn controller.  On a
session with at most `max_enemies = 4` enemies in the live set, a call of
`Generate_enemy` whose read of the queue is in bounds returns a session that
still has at most 4 enemies in the live set; the live set is unchanged or gained
the one new unit. -/
theorem Generate_enemy_keeps_cap (g : Game) (r3 : Fin 3) (r4 : Fin 4)
    (hq : g.idx < 20 → 0 ≤ g.idx ∧ g.idx.toNat < g.enemies_left.length)
    (hcap : g.enemys.length ≤ max_enemies) :
    max_enemies = 4
      ∧ ∃ g', g.Generate_enemy r3 r4 = some g'
        ∧ g'.enemys.length ≤ max_enemies
        ∧ (g'.enemys = g.enemys ∨ g'.enemys = g.enemys ++ [g.tanks.length])
        ∧ g.enemys.length ≤ g'.enemys.length
        ∧ g'.enemys.length ≤ g.enemys.length + 1 := by
  refine ⟨rfl, ?_⟩
  by_cases h20 : g.idx < 20
  · rw [Game.Generate_enemy_attempt_eq g r3 r4 (hq h20).1 h20 (hq h20).2]
    split_ifs with hc
    · exact ⟨g, rfl, hcap, Or.inl rfl, le_refl _, Nat.le_succ _⟩
    · have hne : g.enemys.length ≠ max_enemies := fun h => hc (Or.inr h)
      refine ⟨_, rfl, ?_, Or.inr rfl, ?_, ?_⟩
      · simp only [Game.spawned, List.length_append, List.length_singleton]
        omega
      · simp [Game.spawned]
      · simp [Game.spawned]
  · rw [Game.Generate_enemy_done g r3 r4 h20]
    exact ⟨g, rfl, hcap, Or.inl rfl, le_refl _, Nat.le_succ _⟩

/-- At the start of a level the call releases the first enemy. -/
theorem Generate_enemy_keeps_cap_witness :
    (levelStart.idx < 20 → 0 ≤ levelStart.idx
        ∧ levelStart.idx.toNat < levelStart.enemies_left.length)
      ∧ levelStart.enemys.length ≤ max_enemies
      ∧ ∃ g', levelStart.Generate_enemy 1 0 = some g' ∧ g'.enemys.length ≤ max_enemies :=
  ⟨by decide!, by decide!,
    (Generate_enemy_keeps_cap levelStart 1 0 (by decide!) (by decide!)).2.imp
      (fun _ h => ⟨h.1, h.2.1⟩)⟩

/-- C17: a spawn attempt, that is a call of `Generate_enemy` with the cursor below
20 and inside the queue, builds its candidate from the archetype
`enemies_left[idx]`.  If `PosConflict` holds for the candidate or the live set
holds `max_enemies` enemies, the session is unchanged: the cursor, the queue and
the live set are as before.  Otherwise the candidate becomes a new tank, the live
set gains exactly its pointer, the cursor increases by exactly 1 and nothing else
changes. -/
theorem Generate_enemy_attempt (g : Game) (r3 : Fin 3) (r4 : Fin 4) (h0 : 0 ≤ g.idx)
    (h20 : g.idx < 20) (hlt : g.idx.toNat < g.enemies_left.length) :
    ((g.PosConflict (NewEnemy g.enemies_left[g.idx.toNat] (r4.val : Int)
          ((born_positions r3).1 : ℚ) ((born_positions r3).2 : ℚ)) = true
          ∨ g.enemys.length = max_enemies) →
        g.Generate_enemy r3 r4 = some g)
      ∧ (¬ (g.PosConflict (NewEnemy g.enemies_left[g.idx.toNat] (r4.val : Int)
          ((born_positions r3).1 : ℚ) ((born_positions r3).2 : ℚ)) = true
          ∨ g.enemys.length = max_enemies) →
        ∃ g', g.Generate_enemy r3 r4 = some g'
          ∧ g' = { g with
              tanks := g.tanks ++ [NewEnemy g.enemies_left[g.idx.toNat] (r4.val : Int)
                ((born_positions r3).1 : ℚ) ((born_positions r3).2 : ℚ)],
              enemys := g.enemys ++ [g.tanks.length],
              idx := g.idx + 1 }
          ∧ g'.enemys.length = g.enemys.length + 1
          ∧ g'.tank g.tanks.length = NewEnemy g.enemies_left[g.idx.toNat] (r4.val : Int)
                ((born_positions r3).1 : ℚ) ((born_positions r3).2 : ℚ)
          ∧ (∀ i, i < g.tanks.length → g'.tank i = g.tank i)
          ∧ g'.idx = g.idx + 1) := by
  rw [Game.Generate_enemy_attempt_eq g r3 r4 h0 h20 hlt]
  constructor
  · intro hc
    rw [if_pos hc]
  · intro hc
    rw [if_neg hc]
    exact ⟨_, rfl, rfl, by simp [Game.spawned], Game.tank_spawned_new g _,
      fun i hi => Game.tank_spawned_lt g _ i hi, rfl⟩

/-- In `spawnBusy` an attempt at the occupied spawn point `(3, 3)` changes nothing
and an attempt at `(381, 3)` releases the second enemy. -/
theorem Generate_enemy_attempt_witness :
    (0 ≤ spawnBusy.idx ∧ spawnBusy.idx < 20
        ∧ spawnBusy.idx.toNat < spawnBusy.enemies_left.length)
      ∧ spawnBusy.PosConflict (NewEnemy 0 0 3 3) = true
      ∧ spawnBusy.Generate_enemy 0 0 = some spawnBusy
      ∧ spawnBusy.PosConflict (NewEnemy 0 0 381 3) = false
      ∧ (spawnBusy.Generate_enemy 2 0).map (fun g => (g.enemys, g.idx, g.tank 2))
          = some ([1, 2], 2, NewEnemy 0 0 381 3) :=
  ⟨by decide!, by decide!,
    (Generate_enemy_attempt spawnBusy 0 0 (by decide!) (by decide!) (by decide!)).1
      (by decide!),
    by decide!, by decide!⟩

/-! ## A destroyed unit -/

/-- C16: `Move` on a destroyed unit is a no-op.  For a unit with `Failed` set the
call returns `false` and the session after it is the session before it: the
unit's position and facing and everything else are unchanged. -/
theorem Move_destroyed_noop (g : Game) (t : Ptr) (hf : (g.tank t).Failed = true) :
    g.Move t = (false, g)
      ∧ ((g.Move t).2.tank t).X = (g.tank t).X
      ∧ ((g.Move t).2.tank t).Y = (g.tank t).Y
      ∧ ((g.Move t).2.tank t).Face = (g.tank t).Face := by
  have h : g.Move t = (false, g) := by
    rw [Game.Move_eq, if_pos hf]
  rw [h]
  exact ⟨rfl, rfl, rfl, rfl⟩

/-- The destroyed player of `playerDown` does not move. -/
theorem Move_destroyed_noop_witness :
    (playerDown.tank 0).Failed = true ∧ playerDown.Move 0 = (false, playerDown) :=
  ⟨by decide!, (Move_destroyed_noop playerDown 0 (by decide!)).1⟩

/-! ## Bullets at the screen edge -/

/-- C13: in a tick in play, the round of the bullet loop for a bullet with
`X <= 0`, `X >= 416`, `Y <= 0` or `Y >= 416` only deletes the bullet from the bullet
set.  The bullet is not advanced and no hit is resolved: the tanks, the bullet
objects, the obstacles and the enemies are as before, so no player is marked
`Failed` and no obstacle or enemy is removed, whatever the bullet overlaps. -/
theorem bullet_at_edge_removed (g : Game) (b : Ptr)
    (hedge : (g.bullet b).X ≤ 0 ∨ (g.bullet b).X ≥ screenWidth
      ∨ (g.bullet b).Y ≤ 0 ∨ (g.bullet b).Y ≥ screenHeight) :
    screenWidth = 416 ∧ screenHeight = 416
      ∧ g.bulletStep b = { g with bullets := g.bullets.erase b }
      ∧ (g.bulletStep b).bullet b = g.bullet b
      ∧ (g.bulletStep b).tanks = g.tanks
      ∧ (g.bulletStep b).others = g.others
      ∧ (g.bulletStep b).enemys = g.enemys
      ∧ effects g (g.bulletStep b) = 0
      ∧ (g.bullets.Nodup → b ∉ (g.bulletStep b).bullets) := by
  have h : g.bulletStep b = { g with bullets := g.bullets.erase b } := by
    unfold Game.bulletStep
    rw [if_pos hedge]
  rw [h]
  refine ⟨rfl, rfl, rfl, rfl, rfl, rfl, rfl, ?_, ?_⟩
  · simp [effects, newlyFailed_self]
  · intro hnd
    exact fun hmem => (List.Nodup.mem_erase_iff hnd).mp hmem |>.1 rfl

/-- In `edgeShot` the bullet on the left screen edge would hit the enemy in the
corner: the round deletes the bullet and the enemy stays, also over the whole
tick. -/
theorem bullet_at_edge_removed_witness :
    ((edgeShot.bullet 0).X ≤ 0 ∨ (edgeShot.bullet 0).X ≥ screenWidth
        ∨ (edgeShot.bullet 0).Y ≤ 0 ∨ (edgeShot.bullet 0).Y ≥ screenHeight)
      ∧ edgeShot.hitsEnemy 0 1 = true
      ∧ (edgeShot.HitAndRemove 0).enemys = []
      ∧ edgeShot.bulletStep 0 = { edgeShot with bullets := edgeShot.bullets.erase 0 }
      ∧ (edgeShot.bulletStep 0).bullets = []
      ∧ (edgeShot.bulletStep 0).enemys = [1]
      ∧ (edgeShot.Update noKeys).map (fun g => (g.bullets, g.enemys, g.bullet 0))
          = some ([], [1], edgeShot.bullet 0) :=
  ⟨by decide!, by decide!, by decide!,
    (bullet_at_edge_removed edgeShot 0 (by decide!)).2.2.1,
    by decide!, by decide!, by decide!⟩

/-! ## The owner of a bullet and the kind of an obstacle -/

theorem Game.hitsPlayer_not_owner {g : Game} {b p : Ptr} (h : g.hitsPlayer b p = true) :
    (g.bullet b).Owner ≠ p := by
  unfold Game.hitsPlayer at h
  simp only [Bool.and_eq_true, decide_eq_true_eq] at h
  exact h.1.2

theorem Game.hitsEnemy_not_owner {g : Game} {b e : Ptr} (h : g.hitsEnemy b e = true) :
    (g.bullet b).Owner ≠ e := by
  unfold Game.hitsEnemy at h
  simp only [Bool.and_eq_true, decide_eq_true_eq] at h
  exact h.1

/-- The call of `HitAndRemove` either changes nothing or consumes the bullet on
exactly one target: a player that is live, does not own the bullet and is strictly
overlapped by it, an obstacle strictly overlapped by it, or an enemy of the live
set that does not own the bullet and is strictly overlapped by it. -/
theorem Game.HitAndRemove_target (g : Game) (b : Ptr) :
    g.HitAndRemove b = g
      ∨ (∃ p, (p = g.p0 ∨ g.p1 = some p) ∧ (g.tank p).Failed = false
          ∧ (g.bullet b).Owner ≠ p ∧ CheckCollision (g.tank p) (g.bullet b) false = true
          ∧ g.HitAndRemove b =
            { g.setTank p { g.tank p with Failed := true } with
              bullets := g.bullets.erase b })
      ∨ (∃ other ∈ g.others, CheckCollision other (g.bullet b) false = true
          ∧ g.HitAndRemove b =
            { g with others := g.others.erase other, bullets := g.bullets.erase b })
      ∨ (∃ e ∈ g.enemys, (g.bullet b).Owner ≠ e
          ∧ CheckCollision (g.tank e) (g.bullet b) false = true
          ∧ g.HitAndRemove b =
            { g with enemys := g.enemys.erase e, bullets := g.bullets.erase b }) := by
  have hcc : ∀ p, g.hitsPlayer b p = true →
      CheckCollision (g.tank p) (g.bullet b) false = true := by
    intro p h
    unfold Game.hitsPlayer at h
    simp only [Bool.and_eq_true] at h
    exact h.2
  rcases Game.HitAndRemove_eq g b with ⟨h0, heq⟩ | ⟨_, q, hq, hhit, heq⟩
      | ⟨_, other, ho, heq⟩ | ⟨_, _, e, he, heq⟩ | ⟨_, _, _, heq⟩
  · exact Or.inr (Or.inl ⟨g.p0, Or.inl rfl, Game.hitsPlayer_live h0,
      Game.hitsPlayer_not_owner h0, hcc _ h0, heq⟩)
  · exact Or.inr (Or.inl ⟨q, Or.inr hq, Game.hitsPlayer_live hhit,
      Game.hitsPlayer_not_owner hhit, hcc _ hhit, heq⟩)
  · have hhit : g.hitsOther b other = true := List.find?_some ho
    exact Or.inr (Or.inr (Or.inl ⟨other, List.mem_of_find?_eq_some ho, hhit, heq⟩))
  · have hhit : g.hitsEnemy b e = true := List.find?_some he
    have hc : CheckCollision (g.tank e) (g.bullet b) false = true := by
      unfold Game.hitsEnemy at hhit
      simp only [Bool.and_eq_true] at hhit
      exact hhit.2
    exact Or.inr (Or.inr (Or.inr ⟨e, List.mem_of_find?_eq_some he,
      Game.hitsEnemy_not_owner hhit, hc, heq⟩))
  · exact Or.inl heq

/-- When every player is `Failed`, owns the bullet or is not strictly overlapped by
it, and no obstacle and no enemy is hit, `HitAndRemove` changes nothing. -/
theorem Game.HitAndRemove_no_target (g : Game) (b : Ptr)
    (hp : ∀ p, (p = g.p0 ∨ g.p1 = some p) → (g.tank p).Failed = true
      ∨ (g.bullet b).Owner = p ∨ CheckCollision (g.tank p) (g.bullet b) false = false)
    (ho : ∀ other ∈ g.others, CheckCollision other (g.bullet b) false = false)
    (he : ∀ e ∈ g.enemys, (g.bullet b).Owner = e
      ∨ CheckCollision (g.tank e) (g.bullet b) false = false) :
    g.HitAndRemove b = g := by
  rcases Game.HitAndRemove_target g b with h | ⟨p, hpl, hlive, hown, hc, _⟩
      | ⟨other, hmem, hc, _⟩ | ⟨e, hmem, hown, hc, _⟩
  · exact h
  · rcases hp p hpl with h | h | h
    · rw [hlive] at h
      exact Bool.noConfusion h
    · exact absurd h hown
    · rw [hc] at h
      exact Bool.noConfusion h
  · rw [ho other hmem] at hc
    exact Bool.noConfusion hc
  · rcases he e hmem with h | h
    · exact absurd h hown
    · rw [hc] at h
      exact Bool.noConfusion h

/-- C19: a bullet never harms its owner.  `HitAndRemove` leaves the tank the
bullet belongs to as it was, so it does not set its `Failed`, and leaves it in the
live enemy set if it was there.  The call changes the session only by consuming
the bullet on one target, and a player is the target only if it is live, does not
own the bullet and is strictly overlapped by it: a player already `Failed` is never
the target, the tank store changes only by marking such a live player `Failed`,
and when every player is `Failed` or owns the bullet and no obstacle and no other
enemy is struck the bullet stays in the bullet set and the session is unchanged.
In `wreckInPath` the bullet lies strictly inside the destroyed second player and is
not consumed. -/
theorem HitAndRemove_spares_owner (g : Game) (b : Ptr) :
    (g.HitAndRemove b).tank (g.bullet b).Owner = g.tank (g.bullet b).Owner
      ∧ ((g.HitAndRemove b).tank (g.bullet b).Owner).Failed
          = (g.tank (g.bullet b).Owner).Failed
      ∧ ((g.bullet b).Owner ∈ g.enemys ↔ (g.bullet b).Owner ∈ (g.HitAndRemove b).enemys)
      ∧ ((g.HitAndRemove b).tanks = g.tanks
        ∨ ∃ p, (p = g.p0 ∨ g.p1 = some p) ∧ (g.tank p).Failed = false
            ∧ (g.bullet b).Owner ≠ p
            ∧ (g.HitAndRemove b).tanks = g.tanks.set p { g.tank p with Failed := true })
      ∧ (g.HitAndRemove b = g
        ∨ (∃ p, (p = g.p0 ∨ g.p1 = some p) ∧ (g.tank p).Failed = false
            ∧ (g.bullet b).Owner ≠ p
            ∧ CheckCollision (g.tank p) (g.bullet b) false = true
            ∧ g.HitAndRemove b =
              { g.setTank p { g.tank p with Failed := true } with
                bullets := g.bullets.erase b })
        ∨ (∃ other ∈ g.others, CheckCollision other (g.bullet b) false = true
            ∧ g.HitAndRemove b =
              { g with others := g.others.erase other, bullets := g.bullets.erase b })
        ∨ (∃ e ∈ g.enemys, (g.bullet b).Owner ≠ e
            ∧ CheckCollision (g.tank e) (g.bullet b) false = true
            ∧ g.HitAndRemove b =
              { g with enemys := g.enemys.erase e, bullets := g.bullets.erase b }))
      ∧ ((∀ p, (p = g.p0 ∨ g.p1 = some p) → (g.tank p).Failed = true
            ∨ (g.bullet b).Owner = p
            ∨ CheckCollision (g.tank p) (g.bullet b) false = false) →
          (∀ other ∈ g.others, CheckCollision other (g.bullet b) false = false) →
          (∀ e ∈ g.enemys, (g.bullet b).Owner = e
            ∨ CheckCollision (g.tank e) (g.bullet b) false = false) →
          g.HitAndRemove b = g ∧ (g.HitAndRemove b).bullets = g.bullets)
      ∧ ((wreckInPath.tank 1).Failed = true
        ∧ CheckCollision (wreckInPath.tank 1) (wreckInPath.bullet 0) false = true
        ∧ (wreckInPath.bullet 0).Owner ≠ 1
        ∧ wreckInPath.HitAndRemove 0 = wreckInPath
        ∧ (wreckInPath.HitAndRemove 0).bullets = [0]) := by
  have main : (g.HitAndRemove b).tank (g.bullet b).Owner = g.tank (g.bullet b).Owner
      ∧ ((g.bullet b).Owner ∈ g.enemys ↔ (g.bullet b).Owner ∈ (g.HitAndRemove b).enemys)
      ∧ ((g.HitAndRemove b).tanks = g.tanks
        ∨ ∃ p, (p = g.p0 ∨ g.p1 = some p) ∧ (g.tank p).Failed = false
            ∧ (g.bullet b).Owner ≠ p
            ∧ (g.HitAndRemove b).tanks
                = g.tanks.set p { g.tank p with Failed := true }) := by
    rcases Game.HitAndRemove_eq g b with ⟨h0, heq⟩ | ⟨_, q, hq, hhit, heq⟩
        | ⟨_, other, _, heq⟩ | ⟨_, _, e, he, heq⟩ | ⟨_, _, _, heq⟩
    · rw [heq]
      refine ⟨?_, Iff.rfl, Or.inr ⟨g.p0, Or.inl rfl, Game.hitsPlayer_live h0,
        Game.hitsPlayer_not_owner h0, rfl⟩⟩
      exact Game.tank_setTank_ne g g.p0 _ _ (Game.hitsPlayer_not_owner h0)
    · rw [heq]
      refine ⟨?_, Iff.rfl, Or.inr ⟨q, Or.inr hq, Game.hitsPlayer_live hhit,
        Game.hitsPlayer_not_owner hhit, rfl⟩⟩
      exact Game.tank_setTank_ne g q _ _ (Game.hitsPlayer_not_owner hhit)
    · rw [heq]
      exact ⟨rfl, Iff.rfl, Or.inl rfl⟩
    · rw [heq]
      have hne : (g.bullet b).Owner ≠ e := Game.hitsEnemy_not_owner (List.find?_some he)
      exact ⟨rfl, (List.mem_erase_of_ne hne).symm, Or.inl rfl⟩
    · rw [heq]
      exact ⟨rfl, Iff.rfl, Or.inl rfl⟩
  refine ⟨main.1, by rw [main.1], main.2.1, main.2.2, Game.HitAndRemove_target g b, ?_, ?_⟩
  · intro hp ho he
    have h := Game.HitAndRemove_no_target g b hp ho he
    exact ⟨h, by rw [h]⟩
  · decide!

/-- C15, as stated, fails: in `hardTargets` a steel, a water and a grass obstacle
(`T` = 1, 2, 3) are each strictly overlapped by a bullet, and the three calls of
`HitAndRemove` remove all three from the obstacle set. -/
theorem hard_obstacles_removed :
    hardTargets.others.map (fun o => o.T) = [1, 2, 3]
      ∧ (hardTargets.HitAndRemove 0).others.map (fun o => o.T) = [2, 3]
      ∧ ((hardTargets.HitAndRemove 0).HitAndRemove 1).others.map (fun o => o.T) = [3]
      ∧ (((hardTargets.HitAndRemove 0).HitAndRemove 1).HitAndRemove 2).others = [] := by
  decide!

/-- C15, amended: every kind of obstacle is destructible.  The test of
`HitAndRemove` against an obstacle does not read its kind tag `T`; when no player
is hit, the first obstacle in iteration order that the bullet strictly overlaps is
removed from the obstacle set, whatever its kind; and an obstacle leaves the set
only if the bullet strictly overlaps it. -/
theorem HitAndRemove_any_kind (g : Game) (b : Ptr) :
    (∀ (other : Other) (k : Int), g.hitsOther b { other with T := k } = g.hitsOther b other)
      ∧ (∀ other, g.noPlayerHit b → g.others.find? (g.hitsOther b) = some other →
          g.hitsOther b other = true ∧ other ∈ g.others
            ∧ (g.HitAndRemove b).others = g.others.erase other)
      ∧ ((g.HitAndRemove b).others = g.others
        ∨ ∃ other ∈ g.others, g.hitsOther b other = true
            ∧ (g.HitAndRemove b).others = g.others.erase other) := by
  refine ⟨fun _ _ => rfl, ?_, ?_⟩
  · intro other hnp hfind
    refine ⟨List.find?_some hfind, List.mem_of_find?_eq_some hfind, ?_⟩
    rcases Game.HitAndRemove_eq g b with ⟨h0, _⟩ | ⟨_, q, hq, hhit, _⟩
        | ⟨_, other', ho, heq⟩ | ⟨_, hn, _⟩ | ⟨_, hn, _⟩
    · rw [hnp.1] at h0
      exact Bool.noConfusion h0
    · rw [hnp.2 q hq] at hhit
      exact Bool.noConfusion hhit
    · rw [hfind] at ho
      cases ho
      rw [heq]
    · rw [hfind] at hn
      cases hn
    · rw [hfind] at hn
      cases hn
  · rcases Game.HitAndRemove_eq g b with ⟨_, heq⟩ | ⟨_, q, _, _, heq⟩
        | ⟨_, other, ho, heq⟩ | ⟨_, _, e, _, heq⟩ | ⟨_, _, _, heq⟩
    · rw [heq]
      exact Or.inl rfl
    · rw [heq]
      exact Or.inl rfl
    · rw [heq]
      exact Or.inr ⟨other, List.mem_of_find?_eq_some ho, List.find?_some ho, rfl⟩
    · rw [heq]
      exact Or.inl rfl
    · rw [heq]
      exact Or.inl rfl

/-! ## The corner test is not rectangle intersection -/

/-- C18: there are two boxes whose rectangles intersect in a region of positive
area for which `RectCollision` with `eqa = true` is false.  The upright bar
`10 x 30` at `(10, 0)` and the flat bar `30 x 10` at `(0, 10)` form a cross with
the square `[10, 20] x [10, 20]` in common, and neither has a corner in the other;
so do a player box `26 x 26` at `(144, 384)` and an enemy box `26 x 30` at
`(130, 382)`, with `[144, 156] x [384, 410]` in common. -/
theorem cross_shape_not_detected :
    (overlapArea 10 30 10 0 30 10 0 10 = 100
        ∧ RectCollision 10 30 10 0 30 10 0 10 true = false
        ∧ RectCollision 30 10 0 10 10 30 10 0 true = false)
      ∧ (overlapArea 26 26 144 384 26 30 130 382 = 312
        ∧ RectCollision 26 26 144 384 26 30 130 382 true = false)
      ∧ ∃ (aWidth aHeight : Int) (aX aY : ℚ) (bWidth bHeight : Int) (bX bY : ℚ),
          0 < overlapArea aWidth aHeight aX aY bWidth bHeight bX bY
            ∧ RectCollision aWidth aHeight aX aY bWidth bHeight bX bY true = false :=
  ⟨by decide!, by decide!, ⟨10, 30, 10, 0, 30, 10, 0, 10, by decide!⟩⟩

/-! ## The mode of the session -/

theorem Game.HitAndRemove_mode (g : Game) (b : Ptr) : (g.HitAndRemove b).mode = g.mode := by
  rcases Game.HitAndRemove_eq g b with ⟨_, heq⟩ | ⟨_, q, _, _, heq⟩ | ⟨_, other, _, heq⟩
      | ⟨_, _, e, _, heq⟩ | ⟨_, _, _, heq⟩ <;> rw [heq] <;> rfl

theorem Game.bulletStep_mode (g : Game) (b : Ptr) : (g.bulletStep b).mode = g.mode := by
  unfold Game.bulletStep
  split_ifs
  · rfl
  · rw [Game.HitAndRemove_mode]
    rfl

theorem Game.bulletLoop_mode (l : List Ptr) (g : Game) :
    (l.foldl (fun s bullet => s.bulletStep bullet) g).mode = g.mode := by
  induction l generalizing g with
  | nil => rfl
  | cons b l ih => exact (ih (g.bulletStep b)).trans (Game.bulletStep_mode g b)

theorem Game.Move_mode (g : Game) (t : Ptr) : (g.Move t).2.mode = g.mode := by
  rw [Game.Move_eq]
  split_ifs
  · rfl
  · rfl
  · obtain ⟨t', hd, _, _⟩ := Game.displace_eq g t
    show (g.displace t).mode = g.mode
    rw [hd]
    rfl

theorem Game.enemyStep_mode (g : Game) (e : Ptr) (r : Fin 2) :
    (g.enemyStep e r).mode = g.mode := by
  unfold Game.enemyStep
  simp only
  split_ifs
  · rfl
  · exact Game.Move_mode g e
  · rfl

theorem Game.enemyLoop_mode (l : List Ptr) (coin : Ptr → Fin 2) (g : Game) :
    (l.foldl (fun s e => s.enemyStep e (coin e)) g).mode = g.mode := by
  induction l generalizing g with
  | nil => rfl
  | cons e l ih => exact (ih (g.enemyStep e (coin e))).trans (Game.enemyStep_mode g e (coin e))

theorem Game.Generate_enemy_mode (g g' : Game) (r3 : Fin 3) (r4 : Fin 4)
    (h : g.Generate_enemy r3 r4 = some g') : g'.mode = g.mode := by
  unfold Game.Generate_enemy at h
  split_ifs at h with h20 hneg
  · cases hq : g.enemies_left[g.idx.toNat]? with
    | none => simp [hq] at h
    | some ty =>
      simp only [hq] at h
      split_ifs at h
      · cases h
        rfl
      · cases h
        rfl
  · cases h
    rfl

theorem Game.playerStep_mode (g : Game) (p : Ptr) (up right down left fire : Bool) :
    (g.playerStep p up right down left fire).mode = g.mode := by
  unfold Game.playerStep
  split_ifs <;> first | rfl | exact Game.Move_mode g p

/-- A tick in play leaves the session in play. -/
theorem Game.Update_mode_game (g g' : Game) (inp : Input) (hmode : g.mode = Mode.ModeGame)
    (h : g.Update inp = some g') : g'.mode = Mode.ModeGame := by
  unfold Game.Update at h
  rw [hmode] at h
  simp only at h
  have h1 := Game.bulletLoop_mode g.bullets g
  generalize g.bullets.foldl (fun s bullet => s.bulletStep bullet) g = g1 at h h1
  have h2 := Game.enemyLoop_mode g1.enemys inp.coin g1
  generalize g1.enemys.foldl (fun s e => s.enemyStep e (inp.coin e)) g1 = g2 at h h2
  cases hgen : g2.Generate_enemy inp.born inp.face with
  | none => simp [hgen] at h
  | some g3 =>
    have h3 := Game.Generate_enemy_mode g2 g3 _ _ hgen
    simp only [hgen] at h
    have h4 : (if (g3.tank g3.p0).Failed = false then
        g3.playerStep g3.p0 inp.keyW inp.keyD inp.keyS inp.keyA inp.justF
        else g3).mode = g3.mode := by
      split_ifs
      · exact Game.playerStep_mode _ _ _ _ _ _ _
      · rfl
    generalize (if (g3.tank g3.p0).Failed = false then
        g3.playerStep g3.p0 inp.keyW inp.keyD inp.keyS inp.keyA inp.justF
        else g3) = g4 at h h4
    have h5 : g'.mode = g4.mode := by
      cases hp1 : g4.p1 with
      | none =>
        simp only [hp1] at h
        cases h
        rfl
      | some p1 =>
        simp only [hp1] at h
        cases h
        split_ifs
        · exact Game.playerStep_mode _ _ _ _ _ _ _
        · rfl
    rw [h5, h4, h3, h2, h1, hmode]

theorem Game.ParseLevel_mode (g g' : Game) (h : g.ParseLevel = some g') : g'.mode = g.mode := by
  unfold Game.ParseLevel at h
  split at h
  · cases h
  · cases h
    rfl

theorem Game.addPlayer_mode (g : Game) : g.addPlayer.mode = g.mode := by
  unfold Game.addPlayer
  simp only
  split_ifs <;> rfl

theorem Game.init_mode (g g' : Game) (shuffle : List Int → List Int) (levelData : List String)
    (h : g.init shuffle levelData = some g') : g'.mode = g.mode := by
  unfold Game.init at h
  dsimp only at h
  split_ifs at h
  split at h
  · cases h
  · rw [Game.ParseLevel_mode _ g' h]
    exact Game.addPlayer_mode _

/-- A tick on the title screen leaves the session on the title screen or in play. -/
theorem Game.Update_mode_title (g g' : Game) (inp : Input) (hmode : g.mode = Mode.ModeTitle)
    (h : g.Update inp = some g') : g'.mode = Mode.ModeTitle ∨ g'.mode = Mode.ModeGame := by
  unfold Game.Update at h
  rw [hmode] at h
  simp only at h
  split_ifs at h with hs hk hk
  · right
    rw [Game.init_mode _ g' _ _ h]
  · right
    rw [Game.init_mode _ g' _ _ h]
  · left
    cases h
    rfl
  · left
    cases h
    exact hmode

theorem Game.Update_mode_over (g : Game) (inp : Input) (hmode : g.mode = Mode.ModeGameOver) :
    g.Update inp = some g := by
  unfold Game.Update
  rw [hmode]

theorem Game.Update_not_over (g g' : Game) (inp : Input) (hne : g.mode ≠ Mode.ModeGameOver)
    (h : g.Update inp = some g') : g'.mode ≠ Mode.ModeGameOver := by
  cases hm : g.mode with
  | ModeTitle =>
    rcases Game.Update_mode_title g g' inp hm h with h' | h' <;> rw [h'] <;> decide
  | ModeGame =>
    rw [Game.Update_mode_game g g' inp hm h]
    decide
  | ModeGameOver => exact absurd hm hne

theorem runTicks_not_over (inps : List Input) (g g' : Game) (hne : g.mode ≠ Mode.ModeGameOver)
    (h : runTicks inps g = some g') : g'.mode ≠ Mode.ModeGameOver := by
  induction inps generalizing g with
  | nil =>
    cases h
    exact hne
  | cons inp rest ih =>
    unfold runTicks at h
    cases hu : g.Update inp with
    | none => simp [hu] at h
    | some g1 =>
      simp only [hu] at h
      exact ih g1 (Game.Update_not_over g g1 inp hne hu) h

/-- C14, as stated, fails: a tick in play on the one-player session `playerDown`
and on the two-player session `bothDown`, whose players are all `Failed`, leaves
the session in `ModeGame`, and so do further ticks. -/
theorem players_destroyed_still_playing :
    (playerDown.mode = Mode.ModeGame ∧ (playerDown.tank playerDown.p0).Failed = true
        ∧ playerDown.p1 = none
        ∧ (playerDown.Update noKeys).map (fun g => g.mode) = some Mode.ModeGame)
      ∧ (bothDown.mode = Mode.ModeGame ∧ (bothDown.tank bothDown.p0).Failed = true
        ∧ bothDown.p1 = some 1 ∧ (bothDown.tank 1).Failed = true
        ∧ (bothDown.Update noKeys).map (fun g => g.mode) = some Mode.ModeGame
        ∧ (runTicks [noKeys, noKeys, noKeys] bothDown).map (fun g => g.mode)
            = some Mode.ModeGame) := by
  decide!

/-- C14, amended: `ModeGameOver` is not reachable.  From a session that is not in
`ModeGameOver` no sequence of ticks ends in `ModeGameOver`; a tick in play ends in
play, whether or not the players are `Failed`; and on a session in `ModeGameOver`
`Update` changes nothing. -/
theorem GameOver_unreachable (g : Game) (inps : List Input)
    (hne : g.mode ≠ Mode.ModeGameOver) :
    (∀ g', runTicks inps g = some g' → g'.mode ≠ Mode.ModeGameOver)
      ∧ (g.mode = Mode.ModeGame →
          ∀ inp g', g.Update inp = some g' → g'.mode = Mode.ModeGame)
      ∧ (∀ (s : Game) (inp : Input), s.mode = Mode.ModeGameOver → s.Update inp = some s) :=
  ⟨fun g' h => runTicks_not_over inps g g' hne h,
    fun hm inp g' h => Game.Update_mode_game g g' inp hm h,
    fun s inp hs => Game.Update_mode_over s inp hs⟩

/-- Three ticks on `bothDown` return a session that is not in `ModeGameOver`. -/
theorem GameOver_unreachable_witness :
    bothDown.mode ≠ Mode.ModeGameOver
      ∧ (∃ g', runTicks [noKeys, noKeys, noKeys] bothDown = some g')
      ∧ ∀ g', runTicks [noKeys, noKeys, noKeys] bothDown = some g' →
          g'.mode ≠ Mode.ModeGameOver :=
  ⟨by decide!, ⟨bothDown, by decide!⟩,
    (GameOver_unreachable bothDown [noKeys, noKeys, noKeys] (by decide!)).1⟩

/-! ## Turning -/

theorem Game.playerStep_turn (g : Game) (u : Ptr) (up right down left fire : Bool) (d : Int)
    (hd : inputDir up right down left = some d) (hne : d ≠ (g.tank u).Face) :
    g.playerStep u up right down left fire = g.setTank u { g.tank u with Face := d } := by
  unfold inputDir at hd
  unfold Game.playerStep
  split_ifs at hd with h1 h2 h3 h4 <;> cases hd
  · rw [if_pos h1, if_neg (fun h => hne h.symm)]
  · rw [if_neg h1, if_pos h2, if_neg (fun h => hne h.symm)]
  · rw [if_neg h1, if_neg h2, if_pos h3, if_neg (fun h => hne h.symm)]
  · rw [if_neg h1, if_neg h2, if_neg h3, if_pos h4, if_neg (fun h => hne h.symm)]

theorem Game.playerStep_move (g : Game) (u : Ptr) (up right down left fire : Bool) (d : Int)
    (hd : inputDir up right down left = some d) (heq : d = (g.tank u).Face) :
    g.playerStep u up right down left fire = (g.Move u).2 := by
  unfold inputDir at hd
  unfold Game.playerStep
  split_ifs at hd with h1 h2 h3 h4 <;> cases hd
  · rw [if_pos h1, if_pos heq.symm]
  · rw [if_neg h1, if_pos h2, if_pos heq.symm]
  · rw [if_neg h1, if_neg h2, if_pos h3, if_pos heq.symm]
  · rw [if_neg h1, if_neg h2, if_neg h3, if_pos h4, if_pos heq.symm]

theorem Game.enemyStep_turn (g : Game) (u : Ptr) (r : Fin 2) (h1 : g.GetDirection u r ≠ -1)
    (h2 : g.GetDirection u r ≠ (g.tank u).Face) :
    g.enemyStep u r = g.setTank u { g.tank u with Face := g.GetDirection u r } := by
  unfold Game.enemyStep
  simp only
  rw [if_neg h1, if_neg h2]

theorem Game.enemyStep_move (g : Game) (u : Ptr) (r : Fin 2) (h1 : g.GetDirection u r ≠ -1)
    (h2 : g.GetDirection u r = (g.tank u).Face) : g.enemyStep u r = (g.Move u).2 := by
  unfold Game.enemyStep
  simp only
  rw [if_neg h1, if_pos h2]

theorem Game.enemyStep_stays (g : Game) (u : Ptr) (r : Fin 2)
    (h : g.GetDirection u r = -1 ∨ g.GetDirection u r ≠ (g.tank u).Face) (i : Ptr) :
    ((g.enemyStep u r).tank i).X = (g.tank i).X ∧ ((g.enemyStep u r).tank i).Y = (g.tank i).Y := by
  have hface : ∀ d : Int, ((g.setTank u { g.tank u with Face := d }).tank i).X = (g.tank i).X
      ∧ ((g.setTank u { g.tank u with Face := d }).tank i).Y = (g.tank i).Y :=
    fun d => ⟨(Game.Frame.of_setFace g u d).posX i, (Game.Frame.of_setFace g u d).posY i⟩
  by_cases h1 : g.GetDirection u r = -1
  · unfold Game.enemyStep
    simp only
    rw [if_pos h1]
    exact hface _
  · rcases h with h | h
    · exact absurd h h1
    · rw [Game.enemyStep_turn g u r h1 h]
      exact hface _

/-- C20: turning does not move.  In the round of the enemy loop, an enemy for which
`GetDirection` returns a direction other than `-1` and other than its `Face` ends
the round with that direction as its `Face` and its position unchanged; `Move` is
called exactly when the direction returned equals the `Face`, and in every other
case no tank changes position.  In the key handling of a live player, with `d` the
direction of the first movement key held, the player ends with `Face = d` and its
position unchanged when `d` differs from its `Face`, and `Move` is called when `d`
equals it. -/
theorem turning_does_not_move (g : Game) (u : Ptr) (hlt : u < g.tanks.length) :
    (∀ r, g.GetDirection u r ≠ -1 → g.GetDirection u r ≠ (g.tank u).Face →
        g.enemyStep u r = g.setTank u { g.tank u with Face := g.GetDirection u r }
          ∧ ((g.enemyStep u r).tank u).Face = g.GetDirection u r
          ∧ ((g.enemyStep u r).tank u).X = (g.tank u).X
          ∧ ((g.enemyStep u r).tank u).Y = (g.tank u).Y)
      ∧ (∀ r, g.GetDirection u r ≠ -1 → g.GetDirection u r = (g.tank u).Face →
          g.enemyStep u r = (g.Move u).2)
      ∧ (∀ r, (g.GetDirection u r = -1 ∨ g.GetDirection u r ≠ (g.tank u).Face) → ∀ i,
          ((g.enemyStep u r).tank i).X = (g.tank i).X
            ∧ ((g.enemyStep u r).tank i).Y = (g.tank i).Y)
      ∧ (∀ up right down left fire d, inputDir up right down left = some d →
          d ≠ (g.tank u).Face →
          g.playerStep u up right down left fire = g.setTank u { g.tank u with Face := d }
            ∧ ((g.playerStep u up right down left fire).tank u).Face = d
            ∧ ((g.playerStep u up right down left fire).tank u).X = (g.tank u).X
            ∧ ((g.playerStep u up right down left fire).tank u).Y = (g.tank u).Y)
      ∧ (∀ up right down left fire d, inputDir up right down left = some d →
          d = (g.tank u).Face →
          g.playerStep u up right down left fire = (g.Move u).2) := by
  have hset : ∀ d : Int, ((g.setTank u { g.tank u with Face := d }).tank u).Face = d
      ∧ ((g.setTank u { g.tank u with Face := d }).tank u).X = (g.tank u).X
      ∧ ((g.setTank u { g.tank u with Face := d }).tank u).Y = (g.tank u).Y := by
    intro d
    rw [Game.setTank_tank_of_lt g u _ hlt]
    exact ⟨rfl, rfl, rfl⟩
  refine ⟨?_, fun r h1 h2 => Game.enemyStep_move g u r h1 h2,
    fun r h i => Game.enemyStep_stays g u r h i, ?_,
    fun up right down left fire d hd heq =>
      Game.playerStep_move g u up right down left fire d hd heq⟩
  · intro r h1 h2
    rw [Game.enemyStep_turn g u r h1 h2]
    exact ⟨rfl, hset _⟩
  · intro up right down left fire d hd hne
    rw [Game.playerStep_turn g u up right down left fire d hd hne]
    exact ⟨rfl, hset _⟩

/-- In `loneCorner` the enemy facing up gets the direction 2 on the draw 1 and
turns down at `(0, 0)`; in `facingRight` the player facing right turns up at
`(144, 384)` on the up key. -/
theorem turning_does_not_move_witness :
    (1 < loneCorner.tanks.length ∧ (loneCorner.tank 1).Face = 0
        ∧ loneCorner.GetDirection 1 1 = 2
        ∧ (loneCorner.tank 1).X = 0 ∧ (loneCorner.tank 1).Y = 0
        ∧ ((loneCorner.enemyStep 1 1).tank 1).Face = loneCorner.GetDirection 1 1
        ∧ ((loneCorner.enemyStep 1 1).tank 1).X = (loneCorner.tank 1).X
        ∧ ((loneCorner.enemyStep 1 1).tank 1).Y = (loneCorner.tank 1).Y)
      ∧ (0 < facingRight.tanks.length ∧ (facingRight.tank 0).Face = 1
        ∧ inputDir true false false false = some 0
        ∧ facingRight.playerStep 0 true false false false false
            = facingRight.setTank 0 { facingRight.tank 0 with Face := 0 }
        ∧ ((facingRight.playerStep 0 true false false false false).tank 0).X = 144) :=
  ⟨⟨by decide!, by decide!, by decide!, by decide!, by decide!,
      ((turning_does_not_move loneCorner 1 (by decide!)).1 1 (by decide!) (by decide!)).2⟩,
    by decide!, by decide!, by decide!,
    ((turning_does_not_move facingRight 0 (by decide!)).2.2.2.1 true false false false false 0
      (by decide!) (by decide!)).1,
    by decide!⟩

/-! ## The spawn check against exact overlap -/

/-- A box of negative width or height contains no point. -/
theorem RectCollision_empty (w h : Int) (aX aY : ℚ) (bw bh : Int) (bX bY : ℚ)
    (hneg : w < 0 ∨ h < 0) : RectCollision w h aX aY bw bh bX bY true = false := by
  rw [Bool.eq_false_iff]
  intro hc
  rw [RectCollision_true] at hc
  unfold inIncl at hc
  rcases hneg with hw | hh
  · have hwq : (w : ℚ) < 0 := by exact_mod_cast hw
    rcases hc with ⟨h1, h2, _, _⟩ | ⟨h1, h2, _, _⟩ | ⟨h1, h2, _, _⟩ | ⟨h1, h2, _, _⟩ <;>
      linarith
  · have hhq : (h : ℚ) < 0 := by exact_mod_cast hh
    rcases hc with ⟨_, _, h3, h4⟩ | ⟨_, _, h3, h4⟩ | ⟨_, _, h3, h4⟩ | ⟨_, _, h3, h4⟩ <;>
      linarith

/-- C22: for two units of equal width and height the spawn-safety test is at
least as strict as exact overlap: if `NotSafe t1 t2` is false, then `RectCollision`
of the box of `t1` against the box of `t2` with `eqa = true` is false, in both
orders of the arguments.  For units of different size the implication can fail:
a 26 by 26 player at `(29, 33)` and a 26 by 30 enemy at the spawn point `(3, 3)` are
not too close for `NotSafe`, yet their boxes share the corner `(29, 33)`. -/
theorem NotSafe_stricter_for_equal_size (t1 t2 : Tank) (hw : t2.Image.Dx = t1.Image.Dx)
    (hh : t2.Image.Dy = t1.Image.Dy) (hsafe : NotSafe t1 t2 = false) :
    (RectCollision t1.GetInfo.1 t1.GetInfo.2.1 t1.GetInfo.2.2.1 t1.GetInfo.2.2.2
          t2.GetInfo.1 t2.GetInfo.2.1 t2.GetInfo.2.2.1 t2.GetInfo.2.2.2 true = false
        ∧ RectCollision t2.GetInfo.1 t2.GetInfo.2.1 t2.GetInfo.2.2.1 t2.GetInfo.2.2.2
          t1.GetInfo.1 t1.GetInfo.2.1 t1.GetInfo.2.2.1 t1.GetInfo.2.2.2 true = false
        ∧ CheckCollision t1 t2 true = false ∧ CheckCollision t2 t1 true = false)
      ∧ (playerAtCorner.GetInfo = (26, 26, 29, 33)
        ∧ (NewEnemy 0 0 3 3).GetInfo = (26, 30, 3, 3)
        ∧ NotSafe playerAtCorner (NewEnemy 0 0 3 3) = false
        ∧ CheckCollision playerAtCorner (NewEnemy 0 0 3 3) true = true
        ∧ CheckCollision (NewEnemy 0 0 3 3) playerAtCorner true = true) := by
  have key : CheckCollision t1 t2 true = false ∧ CheckCollision t2 t1 true = false := by
    by_cases hpos : 0 ≤ t1.Image.Dx ∧ 0 ≤ t1.Image.Dy
    · exact NotSafe_false_apart t1 t2 hw hh hpos.1 hpos.2 hsafe
    · have hneg : t1.Image.Dx * 2 < 0 ∨ t1.Image.Dy * 2 < 0 := by omega
      have hneg2 : t2.Image.Dx * 2 < 0 ∨ t2.Image.Dy * 2 < 0 := by
        rw [hw, hh]
        exact hneg
      exact ⟨by rw [CheckCollision_tank]; exact RectCollision_empty _ _ _ _ _ _ _ _ hneg,
        by rw [CheckCollision_tank]; exact RectCollision_empty _ _ _ _ _ _ _ _ hneg2⟩
  refine ⟨⟨key.1, key.2, key.1, key.2⟩, ?_⟩
  decide!

/-- Two enemies at the spawn points `(3, 3)` and `(192, 3)` are not too close and
do not overlap. -/
theorem NotSafe_stricter_for_equal_size_witness :
    ((NewEnemy 1 2 192 3).Image.Dx = (NewEnemy 0 0 3 3).Image.Dx
        ∧ (NewEnemy 1 2 192 3).Image.Dy = (NewEnemy 0 0 3 3).Image.Dy
        ∧ NotSafe (NewEnemy 0 0 3 3) (NewEnemy 1 2 192 3) = false)
      ∧ CheckCollision (NewEnemy 0 0 3 3) (NewEnemy 1 2 192 3) true = false
      ∧ CheckCollision (NewEnemy 1 2 192 3) (NewEnemy 0 0 3 3) true = false :=
  ⟨by decide!,
    (NotSafe_stricter_for_equal_size (NewEnemy 0 0 3 3) (NewEnemy 1 2 192 3) (by decide!)
      (by decide!) (by decide!)).1.2.2⟩

/-! ## The composition table -/

/-- Every row of the table has four entries that sum to 20, and the queue built
from it holds twenty tags between 0 and 3, the tag `i` as often as the entry `i`
says. -/
theorem levels_enemies_rows :
    ∀ row ∈ levels_enemies, row.length = 4 ∧ row.sum = 20
      ∧ (expandFrom 0 row).length = 20
      ∧ (∀ i : Fin 4, (expandFrom 0 row).count (i.val : Int) = (row.getD i.val 0).toNat)
      ∧ ∀ ty ∈ expandFrom 0 row, 0 ≤ ty ∧ ty ≤ 3 := by
  decide!

theorem Game.addPlayer_others (g : Game) : g.addPlayer.others = g.others := by
  unfold Game.addPlayer
  simp only
  split_ifs <;> rfl

theorem Game.addPlayer_queue (g : Game) :
    g.addPlayer.enemies_left = g.enemies_left ∧ g.addPlayer.idx = g.idx := by
  unfold Game.addPlayer
  simp only
  split_ifs <;> exact ⟨rfl, rfl⟩

/-- The queue and the cursor after `init` on a level whose rows parse. -/
theorem Game.init_queue (g : Game) (shuffle : List Int → List Int) (levelData : List String)
    (os : List Other) (row : List Int) (hlevel : ¬ g.level - 1 < 0)
    (hrow : levels_enemies[(g.level - 1).toNat]? = some row)
    (hparse : parseRows 0 levelData [] = some os) :
    ∃ g', g.init shuffle levelData = some g'
      ∧ g'.enemies_left = shuffle (expandFrom 0 row) ∧ g'.idx = 0 ∧ g'.others = os := by
  unfold Game.init
  dsimp only
  rw [if_neg hlevel, hrow]
  dsimp only
  unfold Game.ParseLevel
  dsimp only
  rw [Game.addPlayer_others]
  dsimp only
  rw [hparse]
  refine ⟨_, rfl, ?_, ?_, rfl⟩
  · exact (Game.addPlayer_queue _).1.trans (by simp)
  · exact (Game.addPlayer_queue _).2

/-- A call of `Generate_enemy` on a queue of twenty with the cursor between 0 and
20 does not read outside the queue and leaves the cursor between 0 and 20. -/
theorem Game.Generate_enemy_in_bounds (s : Game) (r3 : Fin 3) (r4 : Fin 4)
    (hq : s.enemies_left.length = 20) (h0 : 0 ≤ s.idx) (h20 : s.idx ≤ 20) :
    ∃ s', s.Generate_enemy r3 r4 = some s' ∧ s'.enemies_left = s.enemies_left
      ∧ 0 ≤ s'.idx ∧ s'.idx ≤ 20 := by
  by_cases hlt : s.idx < 20
  · have hb : s.idx.toNat < s.enemies_left.length := by omega
    have hstep := Game.Generate_enemy_attempt_eq s r3 r4 h0 hlt hb
    split_ifs at hstep
    · exact ⟨s, hstep, rfl, h0, h20⟩
    · refine ⟨_, hstep, rfl, ?_, ?_⟩
      · show 0 ≤ s.idx + 1
        omega
      · show s.idx + 1 ≤ 20
        omega
  · exact ⟨s, Game.Generate_enemy_done s r3 r4 hlt, rfl, h0, h20⟩

/-- C21: every one of the 35 rows of `levels_enemies` has four entries that sum to
exactly 20.  So for every level from 1 to 35 whose rows parse, with `rand.Shuffle`
applying a permutation, `init` builds a queue of length 20 and sets the cursor to
0; the queue holds exactly `levels_enemies[level-1][i]` copies of the tag `i` for
`i` from 0 to 3 and nothing else; and on a queue of twenty with the cursor between
0 and 20 a call of `Generate_enemy`, whose guard is `idx < 20`, never reads
`enemies_left` outside its bounds and leaves the cursor between 0 and 20. -/
theorem levels_sum_twenty (g : Game) (shuffle : List Int → List Int)
    (levelData : List String) (os : List Other) (hlevel : 1 ≤ g.level ∧ g.level ≤ 35)
    (hperm : ∀ l, (shuffle l).Perm l) (hparse : parseRows 0 levelData [] = some os) :
    levels_enemies.length = 35
      ∧ (∀ row ∈ levels_enemies, row.length = 4 ∧ row.sum = 20)
      ∧ (∃ g' row, levels_enemies[(g.level - 1).toNat]? = some row
          ∧ g.init shuffle levelData = some g'
          ∧ g'.enemies_left.length = 20 ∧ g'.idx = 0
          ∧ (∀ i : Fin 4, g'.enemies_left.count (i.val : Int) = (row.getD i.val 0).toNat)
          ∧ (∀ ty ∈ g'.enemies_left, 0 ≤ ty ∧ ty ≤ 3))
      ∧ (∀ (s : Game) (r3 : Fin 3) (r4 : Fin 4), s.enemies_left.length = 20 → 0 ≤ s.idx →
          s.idx ≤ 20 →
          ∃ s', s.Generate_enemy r3 r4 = some s' ∧ s'.enemies_left = s.enemies_left
            ∧ 0 ≤ s'.idx ∧ s'.idx ≤ 20) := by
  have hlen : levels_enemies.length = 35 := by decide
  have hidx : (g.level - 1).toNat < levels_enemies.length := by
    rw [hlen]
    omega
  have hrow : levels_enemies[(g.level - 1).toNat]?
      = some levels_enemies[(g.level - 1).toNat] := List.getElem?_eq_getElem hidx
  have hfacts := levels_enemies_rows _ (List.getElem_mem hidx)
  generalize levels_enemies[(g.level - 1).toNat] = row at hrow hfacts
  obtain ⟨_, _, hl, hc, hm⟩ := hfacts
  obtain ⟨g', hinit, hq, hi, _⟩ := Game.init_queue g shuffle levelData os row (by omega) hrow
    hparse
  refine ⟨hlen, fun r hr => ⟨(levels_enemies_rows r hr).1, (levels_enemies_rows r hr).2.1⟩,
    ⟨g', row, hrow, hinit, ?_, hi, ?_, ?_⟩,
    fun s r3 r4 h1 h2 h3 => Game.Generate_enemy_in_bounds s r3 r4 h1 h2 h3⟩
  · rw [hq, (hperm _).length_eq]
    exact hl
  · intro i
    rw [hq, (hperm _).count_eq]
    exact hc i
  · intro ty hty
    rw [hq] at hty
    exact hm ty ((hperm _).mem_iff.mp hty)

/-- The level 4 on an empty map without shuffling: the queue is two 0s, five 1s,
ten 2s and three 3s. -/
theorem levels_sum_twenty_witness :
    (1 ≤ levelFour.level ∧ levelFour.level ≤ 35)
      ∧ parseRows 0 ["....", "#@%~"] [] = some [NewOther 0 16 0, NewOther 16 16 1,
          NewOther 32 16 2, NewOther 48 16 3]
      ∧ (levelFour.init (fun l => l) ["....", "#@%~"]).map (fun g => g.enemies_left)
          = some [0, 0, 1, 1, 1, 1, 1, 2, 2, 2, 2, 2, 2, 2, 2, 2, 2, 3, 3, 3]
      ∧ ∃ g' row, levels_enemies[(levelFour.level - 1).toNat]? = some row
          ∧ levelFour.init (fun l => l) ["....", "#@%~"] = some g'
          ∧ g'.enemies_left.length = 20 ∧ g'.idx = 0
          ∧ (∀ i : Fin 4, g'.enemies_left.count (i.val : Int) = (row.getD i.val 0).toNat)
          ∧ (∀ ty ∈ g'.enemies_left, 0 ≤ ty ∧ ty ≤ 3) :=
  ⟨by decide!, by decide!, by decide!,
    (levels_sum_twenty levelFour (fun l => l) ["....", "#@%~"]
      [NewOther 0 16 0, NewOther 16 16 1, NewOther 32 16 2, NewOther 48 16 3] (by decide!)
      (fun l => List.Perm.refl l) (by decide!)).2.2.1⟩

/-! ## Players and enemies -/

theorem Game.mem_liveUnits_enemy {g : Game} {e : Ptr} (h : e ∈ g.enemys) :
    e ∈ g.liveUnits := by
  unfold Game.liveUnits
  exact List.mem_append_right _ h

theorem Game.mem_liveUnits_player {g : Game} {p : Ptr} (h : g.isLivePlayer p) :
    p ∈ g.liveUnits := by
  obtain ⟨hpl, hlive⟩ := h
  unfold Game.liveUnits
  apply List.mem_append_left
  rcases hpl with h0 | h1
  · apply List.mem_append_left
    rw [h0] at hlive
    rw [if_pos hlive, h0]
    exact List.mem_singleton_self _
  · apply List.mem_append_right
    rw [h1]
    simp only
    rw [if_pos hlive]
    exact List.mem_singleton_self _

/-- A well-formed session in which no two distinct live units overlap is legal and
no corner of an enemy lies in the box of a live player. -/
theorem Game.noOverlap_clear {g : Game} (hwf : g.WF) (h : g.noOverlap) (n : Nat) :
    g.Legal ∧ g.cornersClear n := by
  refine ⟨⟨hwf, ?_, ?_⟩, ?_⟩
  · intro a ha b hb hab
    exact h a (Game.mem_liveUnits_enemy ha) b (Game.mem_liveUnits_enemy hb) hab
  · intro q hq h0 h1
    have hne : g.p0 ≠ q := fun hh => (hwf.p1_lt q hq).2 hh.symm
    have m0 : g.p0 ∈ g.liveUnits := Game.mem_liveUnits_player ⟨Or.inl rfl, h0⟩
    have m1 : q ∈ g.liveUnits := Game.mem_liveUnits_player ⟨Or.inr hq, h1⟩
    exact ⟨h g.p0 m0 q m1 hne, h q m1 g.p0 m0 (fun hh => hne hh.symm)⟩
  · intro p hp e he _
    have hpe : p ≠ e := by
      intro hh
      rcases hp.1 with h0 | h1
      · exact (hwf.enemy_lt e he).2.1 (hh.symm.trans h0)
      · exact (hwf.enemy_lt e he).2.2 (by rw [← hh]; exact h1)
    exact h p (Game.mem_liveUnits_player hp) e (Game.mem_liveUnits_enemy he) hpe

end BattleCity
